import Mathlib

/-! # Presence synchronisation of the admin panel

A shallow embedding of the JavaScript of the admin panel: the values that
travel in socket payloads and HTTP responses, the presence handlers and
`fetchUsers` of the user list view (`src/pages/Users.jsx`), the response
interceptor of the HTTP client (`src/services/api.js`), `fetchJoinHistory`
(`src/pages/JoinHistory.jsx`), `fetchReports` (`src/pages/Reports.jsx`), the
socket service (`src/services/socketService.js`), the `dashboard_stats`
handler, the snapshot fetch and the private-frequency timer of the dashboard
(`src/pages/Dashboard.jsx`), and the navigation of the join-history view.

Conventions of the embedding

* A JavaScript value is a `JSVal`. Numbers are integers (payloads and
  responses are parsed JSON, which carries neither `NaN` nor an infinity, and
  `-0 === 0`). Strings are Lean strings. An object is the list of its own
  properties in enumeration order.
* Where the program does arithmetic on a number, the page numbers of the
  join-history view, the number is a `JSNumber`, a double given as the quotient
  it is, and an addition is defined where its exact result is a double.
* An expression that may throw returns `Except String`, the error being the
  thrown `TypeError`; a promise that may reject is an `Except String` as well.
* React state is passed explicitly: a functional updater
  `setUsers(prev => ...)` is a function from the previous list to the next.
-/

namespace Presence

/-- JavaScript values as they occur in parsed JSON, plus `undefined`. -/
inductive JSVal where
  | undefined : JSVal
  | null : JSVal
  | bool (b : Bool) : JSVal
  | num (n : Int) : JSVal
  | str (s : String) : JSVal
  | arr (items : List JSVal) : JSVal
  | obj (props : List (String × JSVal)) : JSVal

/-- Own properties of an object, in enumeration order. -/
abbrev Props := List (String × JSVal)

namespace JSVal

/-- The test `ToBoolean`: what `if (v)`, `v && w` and `v || w` look at. -/
def truthy : JSVal → Bool
  | undefined => false
  | null => false
  | bool b => b
  | num n => n != 0
  | str s => s != ""
  | arr _ => true
  | obj _ => true

/-- Strict equality `a === b`. Two primitives are equal when they have the same
type and the same value. Two objects (or arrays) are equal only when they are
the same reference; every comparison of this program has one operand from the
view state and the other from a freshly parsed socket payload, so two objects
are never the same reference here. -/
def strictEq : JSVal → JSVal → Bool
  | undefined, undefined => true
  | null, null => true
  | bool a, bool b => a == b
  | num a, num b => a == b
  | str a, str b => a == b
  | _, _ => false

/-- Value of property `k` in a property list, `undefined` when absent. -/
def lookup (k : String) : Props → JSVal
  | [] => undefined
  | (k', v) :: rest => if k' = k then v else lookup k rest

/-- The member access `v.k`. It throws on `undefined` and `null`. On a
primitive or an array it yields `undefined`: the names this program reads
(`_id`, `userId`, `status`, `user`, `data`, `users`, `total`, `current`,
`pageSize`, `page`, `limit`, `startDate`, `endDate`, `success`, `history`,
`pagination`, `reports`, `totalUsers`, `activeFrequencies`,
`privateFrequencies`, `dailyActiveUsers`, `dailyActive`) are neither indices
nor built-in members. -/
def getProp (v : JSVal) (k : String) : Except String JSVal :=
  match v with
  | undefined => .error "TypeError: cannot read properties of undefined"
  | null => .error "TypeError: cannot read properties of null"
  | obj ps => .ok (lookup k ps)
  | _ => .ok undefined

/-- The optional chain `v?.k`: `undefined` on `undefined` and `null`. -/
def optProp (v : JSVal) (k : String) : JSVal :=
  match v with
  | obj ps => lookup k ps
  | _ => undefined

/-- The expression `a || b`. -/
def or (a b : JSVal) : JSVal := if a.truthy then a else b

/-- The test `Array.isArray(v)`. -/
def isArray : JSVal → Bool
  | arr _ => true
  | _ => false

/-- Pairs an index with each element, from index `i` on. -/
def indexed {α : Type} (f : α → JSVal) : Nat → List α → Props
  | _, [] => []
  | i, x :: xs => (toString i, f x) :: indexed f (i + 1) xs

/-- Own enumerable properties copied by a spread `{...v}`: the properties of an
object, the indexed elements of an array, the indexed characters of a string
(JavaScript indexes UTF-16 units, which are the characters of a string without
astral characters), and nothing for any other value. -/
def ownEntries : JSVal → Props
  | obj ps => ps
  | arr items => indexed id 0 items
  | str s => indexed (fun c => str (String.singleton c)) 0 s.toList
  | _ => []

/-- Defines property `k` on a property list: an existing property keeps its
place and takes the new value, a new property goes last. -/
def setProp (k : String) (v : JSVal) : Props → Props
  | [] => [(k, v)]
  | (k', v') :: rest => if k' = k then (k, v) :: rest else (k', v') :: setProp k v rest

/-- The object literal `{ ...u, k: v }`. -/
def spreadWith (u : JSVal) (k : String) (v : JSVal) : JSVal :=
  obj (setProp k v (ownEntries u))

end JSVal

open JSVal

/-- The call `xs.map(f)` for a callback that may throw: elements are visited
from the first to the last and the first exception ends the call. -/
def mapArray (f : JSVal → Except String JSVal) : List JSVal → Except String (List JSVal)
  | [] => .ok []
  | u :: rest =>
    match f u with
    | .error e => .error e
    | .ok u' =>
      match mapArray f rest with
      | .error e => .error e
      | .ok rest' => .ok (u' :: rest')

/-- Callback of the `user_status_changed` updater (Users.jsx, lines 32-34):
`u => u._id === data.userId ? { ...u, isOnline: data.status === 'online' } : u`. -/
def statusChangedStep (data u : JSVal) : Except String JSVal := do
  let uid ← u.getProp "_id"
  let userId ← data.getProp "userId"
  if strictEq uid userId then
    let status ← data.getProp "status"
    pure (spreadWith u "isOnline" (bool (strictEq status (str "online"))))
  else
    pure u

/-- Handler of `user_status_changed` (Users.jsx, lines 29-35): the updater
given to `setUsers`, from the previous list to the next. -/
def onUserStatusChanged (data : JSVal) (prevUsers : List JSVal) : Except String (List JSVal) :=
  mapArray (statusChangedStep data) prevUsers

/-- Callback of the `user_left_frequency` updater (Users.jsx, lines 41-43):
`u => u._id === data.userId ? { ...u, isOnline: false } : u`. -/
def leftFrequencyStep (data u : JSVal) : Except String JSVal := do
  let uid ← u.getProp "_id"
  let userId ← data.getProp "userId"
  if strictEq uid userId then
    pure (spreadWith u "isOnline" (bool false))
  else
    pure u

/-- Handler of `user_left_frequency` (Users.jsx, lines 38-44). -/
def onUserLeftFrequency (data : JSVal) (prevUsers : List JSVal) : Except String (List JSVal) :=
  mapArray (leftFrequencyStep data) prevUsers

/-- The guard `data && data.user && data.user._id` (Users.jsx, line 50): the
value of the expression, whose truthiness the `if` tests. `a && b` is `a` when
`a` is falsy and `b` otherwise, so a member is read only from a truthy value. -/
def joinedGuard (data : JSVal) : Except String JSVal :=
  if data.truthy then do
    let user ← data.getProp "user"
    if user.truthy then user.getProp "_id" else pure user
  else
    pure data

/-- Callback of the `user_joined_frequency` updater (Users.jsx, lines 52-54):
`u => u._id === data.user._id ? { ...u, isOnline: true } : u`. -/
def joinedFrequencyStep (data u : JSVal) : Except String JSVal := do
  let uid ← u.getProp "_id"
  let user ← data.getProp "user"
  let id ← user.getProp "_id"
  if strictEq uid id then
    pure (spreadWith u "isOnline" (bool true))
  else
    pure u

/-- Handler of `user_joined_frequency` (Users.jsx, lines 47-56): without the
guard `setUsers` is not called and the list stays as it is. -/
def onUserJoinedFrequency (data : JSVal) (prevUsers : List JSVal) : Except String (List JSVal) := do
  let guard ← joinedGuard data
  if guard.truthy then
    mapArray (joinedFrequencyStep data) prevUsers
  else
    pure prevUsers

/-- State of the Users view that the presence logic reads and writes
(Users.jsx, lines 10-12). -/
structure UsersView where
  users : List JSVal
  pagination : JSVal
  searchText : JSVal

/-- State of the view at mount: `[]`, `{ current: 1, pageSize: 10, total: 0 }`
and `''`. -/
def initialUsersView : UsersView :=
  { users := []
    pagination := obj [("current", num 1), ("pageSize", num 10), ("total", num 0)]
    searchText := str "" }

/-- Argument of `userService.getAllUsers` (Users.jsx, lines 107-111), built from
the `pagination` and `searchText` that the running `fetchUsers` closes over. -/
def fetchUsersParams (closure : UsersView) : Except String JSVal := do
  let page ← closure.pagination.getProp "current"
  let limit ← closure.pagination.getProp "pageSize"
  pure (obj [("page", page), ("limit", limit), ("search", closure.searchText)])

/-- The value `Array.isArray(v) ? v : []`, as the list of its elements. -/
def arrayOrEmpty : JSVal → List JSVal
  | arr items => items
  | _ => []

/-- Handling of a resolved response (Users.jsx, lines 116-123): the response is
unwrapped from its envelope if it has one, the user list is replaced and
`total` is written into the pagination. -/
def applyUsersResponse (response : JSVal) (st : UsersView) : UsersView :=
  let userData := (response.optProp "data").or response
  let usersList := (userData.optProp "users").or (arr [])
  let total := (userData.optProp "total").or (num 0)
  { st with
    users := arrayOrEmpty usersList
    pagination := spreadWith st.pagination "total" total }

/-- The function `fetchUsers` (Users.jsx, lines 104-129). `getAllUsers` is the
call of the user service, which is not part of these sources: it resolves to a
response or rejects. `closure` holds the values the function closes over,
`st` the state at the time the outcome is handled. Nothing in the handling of a
resolved response throws, so the `catch` branch runs exactly when the request
fails; it empties the list and leaves the rest. -/
def fetchUsers (getAllUsers : JSVal → Except String JSVal) (closure st : UsersView) : UsersView :=
  match fetchUsersParams closure >>= getAllUsers with
  | .ok response => applyUsersResponse response st
  | .error _ => { st with users := [] }

/-- The enveloped response `{ success: true, data: d }`. -/
def enveloped (d : JSVal) : JSVal := obj [("success", bool true), ("data", d)]

/-- The payload `{ users: U, total: t }` of a user fetch. -/
def usersPayload (U : List JSVal) (t : Int) : JSVal := obj [("users", arr U), ("total", num t)]

/-- The id that a `user_joined_frequency` payload carries: `data.user._id`,
`undefined` when a link of the chain is missing. -/
def joinedId (data : JSVal) : JSVal := (data.optProp "user").optProp "_id"

/-- What a presence updater does to one user object: `isOnline` is set to
`online` when the user's `_id` is strictly equal to `id`. -/
def markUser (id : JSVal) (online : Bool) (p : Props) : Props :=
  if strictEq (lookup "_id" p) id then setProp "isOnline" (bool online) p else p

/-! ### The HTTP client (`src/services/api.js`) -/

/-- Success handler of the response interceptor (api.js, lines 28-32): callers
get `response.data`, the body, in place of the response. -/
def onResponseFulfilled (response : JSVal) : Except String JSVal :=
  response.getProp "data"

/-- The call `api.get(url, config)` as a caller awaits it. `transport` is the
HTTP exchange itself, which resolves to a response object or fails; a response
goes through the success handler of the interceptor, a failure stays a
rejection (api.js, line 39; callers only log its value). -/
def apiGet (transport : JSVal → Except String JSVal) (config : JSVal) : Except String JSVal :=
  transport config >>= onResponseFulfilled

/-- The response object in which the transport delivers the body `body`. -/
def httpResponse (body : JSVal) : JSVal := obj [("data", body), ("status", num 200)]

/-! ### The join-history view (`src/pages/JoinHistory.jsx`) -/

/-- State of the JoinHistory view (JoinHistory.jsx, lines 7-18). -/
structure JoinHistoryView where
  loading : JSVal
  joinHistory : JSVal
  pagination : JSVal
  filters : JSVal

/-- State of the JoinHistory view at mount. -/
def initialJoinHistoryView : JoinHistoryView :=
  { loading := bool true
    joinHistory := arr []
    pagination := obj [("page", num 1), ("limit", num 50), ("totalRecords", num 0),
      ("totalPages", num 1)]
    filters := obj [("startDate", str ""), ("endDate", str "")] }

/-- The spread `...(v && { k: v })` inside an object literal: the property `k`
when `v` is truthy, nothing when it is falsy (a falsy value has no own
enumerable property). -/
def spreadWhenTruthy (k : String) (v : JSVal) : Props :=
  if v.truthy then [(k, v)] else []

/-- The object `params` of `fetchJoinHistory` (JoinHistory.jsx, lines 27-32). -/
def joinHistoryParams (closure : JoinHistoryView) : Except String JSVal := do
  let page ← closure.pagination.getProp "page"
  let limit ← closure.pagination.getProp "limit"
  let startDate ← closure.filters.getProp "startDate"
  let endDate ← closure.filters.getProp "endDate"
  pure (obj ([("page", page), ("limit", limit)] ++ spreadWhenTruthy "startDate" startDate ++
    spreadWhenTruthy "endDate" endDate))

/-- Handling of the awaited value in `fetchJoinHistory` (JoinHistory.jsx, lines
36-39): `if (response.data.success)` then `joinHistory` and `pagination` are
taken from `response.data.data`. Every member access is evaluated before the
first setter is called, so an exception leaves the state as it was. -/
def applyJoinHistoryResponse (response : JSVal) (st : JoinHistoryView) :
    Except String JoinHistoryView := do
  let data ← response.getProp "data"
  let success ← data.getProp "success"
  if success.truthy then
    let inner ← data.getProp "data"
    let history ← inner.getProp "history"
    let pagination ← inner.getProp "pagination"
    pure { st with joinHistory := history, pagination := pagination }
  else
    pure st

/-- The function `fetchJoinHistory` (JoinHistory.jsx, lines 24-45): `loading`
is set, the request is sent through `api.get`, the awaited value is handled;
the `catch` branch only logs and `finally` clears `loading`. `closure` holds
the values the function closes over, `st` the state it updates. -/
def fetchJoinHistory (transport : JSVal → Except String JSVal)
    (closure st : JoinHistoryView) : JoinHistoryView :=
  let started := { st with loading := bool true }
  let tried : Except String JoinHistoryView := do
    let params ← joinHistoryParams closure
    let response ← apiGet transport (obj [("params", params)])
    applyJoinHistoryResponse response started
  let settled := match tried with
    | .ok next => next
    | .error _ => started
  { settled with loading := bool false }

/-- The bare join-history body `{ history: H, pagination: P }`. -/
def historyPayload (H : List JSVal) (P : JSVal) : JSVal :=
  obj [("history", arr H), ("pagination", P)]

/-! ### The reports view (`src/pages/Reports.jsx`) -/

/-- State of the Reports view that `fetchReports` reads and writes
(Reports.jsx, lines 21-25). -/
structure ReportsView where
  reports : JSVal
  loading : JSVal
  filter : JSVal
  pagination : JSVal

/-- State of the Reports view at mount. -/
def initialReportsView : ReportsView :=
  { reports := arr []
    loading := bool true
    filter := str "all"
    pagination := obj [("current", num 1), ("pageSize", num 20), ("total", num 0)] }

/-- The object `params` of `fetchReports` (Reports.jsx, lines 38-44): `status`
is added unless the filter is `'all'`. -/
def reportsParams (closure : ReportsView) : Except String JSVal := do
  let page ← closure.pagination.getProp "current"
  let limit ← closure.pagination.getProp "pageSize"
  if strictEq closure.filter (str "all") then
    pure (obj [("page", page), ("limit", limit)])
  else
    pure (obj (setProp "status" closure.filter [("page", page), ("limit", limit)]))

/-- Handling of the awaited value in `fetchReports` (Reports.jsx, lines 48-56):
with a truthy `response.data` the reports are `response.data.reports || []` and
the total is `response.data.pagination?.total || 0`; otherwise the reports are
emptied and the pagination stays. Nothing here throws: a member is read only
from a truthy value. -/
def applyReportsResponse (response : JSVal) (st : ReportsView) : ReportsView :=
  if response.truthy && (response.optProp "data").truthy then
    let data := response.optProp "data"
    { st with
      reports := (data.optProp "reports").or (arr [])
      pagination := spreadWith st.pagination "total"
        (((data.optProp "pagination").optProp "total").or (num 0)) }
  else
    { st with reports := arr [] }

/-- The function `fetchReports` (Reports.jsx, lines 35-64). `getReports` is the
call of the report service, which is not part of these sources: it resolves to
a value or rejects. The `catch` branch empties the reports and `finally`
clears `loading`. -/
def fetchReports (getReports : JSVal → Except String JSVal)
    (closure st : ReportsView) : ReportsView :=
  let started := { st with loading := bool true }
  let settled := match reportsParams closure >>= getReports with
    | .ok response => applyReportsResponse response started
    | .error _ => { started with reports := arr [] }
  { settled with loading := bool false }

/-- The payload `{ reports: R, pagination: { total: t } }` of a report fetch. -/
def reportsPayload (R : List JSVal) (t : Int) : JSVal :=
  obj [("reports", arr R), ("pagination", obj [("total", num t)])]

/-! ### The socket service (`src/services/socketService.js`) -/

/-- A connection made by `io(SOCKET_URL, { transports: ['websocket'], auth: { token } })`:
the token it authenticates with and its number among the connections made so
far, which tells two connections apart. -/
structure Connection where
  serial : Nat
  token : JSVal

/-- The module variable `socket` (socketService.js, line 8): `undefined` until
the first connection, `null` after a disconnect, otherwise a connection. -/
inductive SocketSlot where
  | undefined : SocketSlot
  | null : SocketSlot
  | socket (c : Connection) : SocketSlot

/-- State of the socket service: the module variable, the connections that `io`
has made, in order, and the connections whose `disconnect()` has been called,
in order. -/
structure SocketService where
  socket : SocketSlot
  opened : List Connection
  closed : List Connection

/-- The service when the module is loaded. -/
def initialSocketService : SocketService :=
  { socket := .undefined, opened := [], closed := [] }

/-- The function `connectSocket` (socketService.js, lines 10-18): a connection
is made only when the variable holds none (`!socket`); the variable is
returned. -/
def connectSocket (token : JSVal) (s : SocketService) : Connection × SocketService :=
  match s.socket with
  | .socket c => (c, s)
  | _ =>
    let c : Connection := { serial := s.opened.length, token := token }
    (c, { s with socket := .socket c, opened := s.opened ++ [c] })

/-- The function `getSocket` (socketService.js, lines 20-22). -/
def getSocket (s : SocketService) : SocketSlot := s.socket

/-- The function `disconnectSocket` (socketService.js, lines 24-29). -/
def disconnectSocket (s : SocketService) : SocketService :=
  match s.socket with
  | .socket c => { s with socket := .null, closed := s.closed ++ [c] }
  | _ => s

/-- A run of `connectSocket` calls, one for each token, with nothing in
between: the connections returned, in order, and the service afterwards. -/
def connectSockets : List JSVal → SocketService → List Connection × SocketService
  | [], s => ([], s)
  | token :: rest, s =>
    let first := connectSocket token s
    let others := connectSockets rest first.2
    (first.1 :: others.1, others.2)

/-! ### The dashboard statistics (`src/pages/Dashboard.jsx`) -/

/-- The statistics at mount (Dashboard.jsx, lines 19-24). -/
def initialDashboardStats : JSVal :=
  obj [("totalUsers", num 0), ("activeFrequencies", num 0), ("privateFrequencies", num 0),
    ("dailyActiveUsers", num 0)]

/-- Handler of `dashboard_stats` (Dashboard.jsx, lines 43-50), from the
previous statistics to the next: `setStats` is given a new record of the four
members read from the payload. -/
def onDashboardStats (data : JSVal) (_prevStats : JSVal) : Except String JSVal := do
  let totalUsers ← data.getProp "totalUsers"
  let activeFrequencies ← data.getProp "activeFrequencies"
  let privateFrequencies ← data.getProp "privateFrequencies"
  let dailyActiveUsers ← data.getProp "dailyActiveUsers"
  pure (obj [("totalUsers", totalUsers), ("activeFrequencies", activeFrequencies),
    ("privateFrequencies", privateFrequencies), ("dailyActiveUsers", dailyActiveUsers)])

/-- The statistics that the view holds once the `dashboard_stats` handler has
run on `data`: the record given to `setStats`, or the previous record when
reading a member of the payload throws, which happens while the argument of
`setStats` is built, before `setStats` is called (Dashboard.jsx, lines 44-49). -/
def statsAfter (data prevStats : JSVal) : JSVal :=
  match onDashboardStats data prevStats with
  | .ok next => next
  | .error _ => prevStats

/-! ### The listeners of the Users view (`src/pages/Users.jsx`, lines 20-98) -/

/-- The listeners that the Users view registers: five on the socket and
`handleVisibilityChange` on the document. -/
inductive UsersListener where
  | userStatusChanged : UsersListener
  | userLeftFrequency : UsersListener
  | userJoinedFrequency : UsersListener
  | connect : UsersListener
  | disconnect : UsersListener
  | handleVisibilityChange : UsersListener

/-- Listeners registered on an emitter, each under its event name, in order of
registration. -/
abbrev Listeners := List (String × UsersListener)

/-- The call `emitter.on(event, listener)`. -/
def listenerOn (event : String) (listener : UsersListener) (ls : Listeners) : Listeners :=
  ls ++ [(event, listener)]

/-- The call `socket.off(event)`: every listener of the event is removed. -/
def listenerOff (event : String) (ls : Listeners) : Listeners :=
  ls.filter (fun entry => entry.1 != event)

/-- Registrations of the socket effect (Users.jsx, lines 29-67). -/
def registerSocketListeners (ls : Listeners) : Listeners :=
  listenerOn "disconnect" .disconnect
    (listenerOn "connect" .connect
      (listenerOn "user_joined_frequency" .userJoinedFrequency
        (listenerOn "user_left_frequency" .userLeftFrequency
          (listenerOn "user_status_changed" .userStatusChanged ls))))

/-- Cleanup of the socket effect (Users.jsx, lines 69-77). -/
def unregisterSocketListeners (ls : Listeners) : Listeners :=
  listenerOff "disconnect"
    (listenerOff "connect"
      (listenerOff "user_joined_frequency"
        (listenerOff "user_left_frequency"
          (listenerOff "user_status_changed" ls))))

/-- Registration of the visibility effect (Users.jsx, line 94). -/
def registerVisibilityListener (ls : Listeners) : Listeners :=
  listenerOn "visibilitychange" .handleVisibilityChange ls

/-- Number of `fetchUsers` calls that one call of a listener makes, given
`document.hidden`: the `connect` listener calls it once (line 62),
`handleVisibilityChange` once unless the document is hidden (lines 88-91), the
other listeners never. -/
def fetchUsersCalls (hidden : Bool) : UsersListener → Nat
  | .connect => 1
  | .handleVisibilityChange => if !hidden then 1 else 0
  | _ => 0

/-- One notification of `event`: every listener registered under the event is
called once, in order of registration. -/
def notified (event : String) (ls : Listeners) : List UsersListener :=
  (ls.filter (fun entry => entry.1 == event)).map (fun entry => entry.2)

/-- Number of `fetchUsers` calls that one notification of `event` causes. -/
def fetchUsersCallsOn (hidden : Bool) (event : String) (ls : Listeners) : Nat :=
  ((notified event ls).map (fetchUsersCalls hidden)).sum

/-! ### Listeners of the Users view: state and resync (`src/pages/Users.jsx`) -/

/-- Listener of `disconnect` (Users.jsx, lines 65-67), from the state before to
the state after: it writes one log line and calls no setter. -/
def onDisconnect (st : UsersView) : UsersView := st

/-- The resync that the `connect` listener (Users.jsx, line 62) and
`handleVisibilityChange` (line 90) start. Both are created by effects with an
empty dependency list (lines 78 and 98), which run after the first render only,
so the `fetchUsers` they call is the one of the first render: it closes over
the `pagination` and `searchText` of the state at mount. `st` is the state
when the outcome is handled. -/
def resyncFromListener (getAllUsers : JSVal → Except String JSVal) (st : UsersView) : UsersView :=
  fetchUsers getAllUsers initialUsersView st

/-- The fetch of the effect with the dependencies
`[pagination.current, pagination.pageSize, searchText]` (Users.jsx, lines
100-102): it runs again after a render in which one of them has changed, with
the `fetchUsers` of that render, which closes over the current state. -/
def refetchFromEffect (getAllUsers : JSVal → Except String JSVal) (st : UsersView) : UsersView :=
  fetchUsers getAllUsers st st

/-- The function `handleSearch` (Users.jsx, lines 135-138). -/
def handleSearch (value : JSVal) (st : UsersView) : UsersView :=
  { st with
    searchText := value
    pagination := spreadWith st.pagination "current" (num 1) }

/-! ### Navigation of the join-history view (`src/pages/JoinHistory.jsx`) -/

/-- The function `handlePageChange` (JoinHistory.jsx, lines 58-60). -/
def handlePageChange (newPage : JSVal) (st : JoinHistoryView) : JoinHistoryView :=
  { st with pagination := spreadWith st.pagination "page" newPage }

/-- The function `handleFilterChange` (JoinHistory.jsx, lines 62-66) for an
event whose target has the name `name` and the value `value`. -/
def handleFilterChange (name : String) (value : JSVal) (st : JoinHistoryView) :
    JoinHistoryView :=
  { st with
    filters := spreadWith st.filters name value
    pagination := spreadWith st.pagination "page" (num 1) }

/-- The function `clearFilters` (JoinHistory.jsx, lines 68-71). -/
def clearFilters (st : JoinHistoryView) : JoinHistoryView :=
  { st with
    filters := obj [("startDate", str ""), ("endDate", str "")]
    pagination := spreadWith st.pagination "page" (num 1) }

/-- A finite JavaScript number as the quotient it is: the IEEE-754 double
`numerator / 2 ^ exponent`. Every finite double has this form: an integer `n`
is `n / 2 ^ 0` and `1.5` is `3 / 2 ^ 1`. The page numbers of the join-history
view are such numbers: they are taken from the server as they come
(JoinHistory.jsx, line 38) and nothing in the view makes them integers. -/
structure JSNumber where
  numerator : Int
  exponent : Nat
  deriving DecidableEq

namespace JSNumber

/-- The number that an integer literal such as `1` denotes. -/
def ofInt (n : Int) : JSNumber := { numerator := n, exponent := 0 }

/-- The comparison `a <= b`, which is exact on doubles. -/
def le (a b : JSNumber) : Bool :=
  decide (a.numerator * 2 ^ b.exponent ≤ b.numerator * 2 ^ a.exponent)

/-- The comparison `a > b`, which is exact on doubles. -/
def gt (a b : JSNumber) : Bool :=
  decide (a.numerator * 2 ^ b.exponent > b.numerator * 2 ^ a.exponent)

/-- Strict equality `a === b` of two numbers: the same value. -/
def same (a b : JSNumber) : Bool :=
  decide (a.numerator * 2 ^ b.exponent = b.numerator * 2 ^ a.exponent)

/-- The sum `a + k` of a number and an integer (`a - 1` is `a + (-1)`). The
exact sum is `(numerator + k * 2 ^ exponent) / 2 ^ exponent`. When its numerator
is at most `2 ^ 53` in absolute value the exact sum is a double, and IEEE-754
addition returns it. Otherwise the addition may have to round, which this
embedding leaves out: the result is `none`. -/
def plus (a : JSNumber) (k : Int) : Option JSNumber :=
  if -9007199254740992 ≤ a.numerator + k * 2 ^ a.exponent ∧
      a.numerator + k * 2 ^ a.exponent ≤ 9007199254740992 then
    some { numerator := a.numerator + k * 2 ^ a.exponent, exponent := a.exponent }
  else
    none

end JSNumber

/-- The two members of the join-history pagination that the navigation reads,
`page` and `totalPages`, when both are numbers. -/
structure PageNumbers where
  page : JSNumber
  totalPages : JSNumber
  deriving DecidableEq

/-- What `setPagination(prev => ({ ...prev, page: newPage }))` does to the two
members: `page` is replaced and `totalPages` stays. This is the updater of
`handlePageChange` (JoinHistory.jsx, line 59). -/
def setPage (newPage : JSNumber) (p : PageNumbers) : PageNumbers :=
  { p with page := newPage }

/-- The pagination controls are rendered: `pagination.totalPages > 1`
(JoinHistory.jsx, line 202). -/
def controlsShown (p : PageNumbers) : Bool :=
  p.totalPages.gt (JSNumber.ofInt 1)

/-- The button Previous can be pressed: the controls are rendered and the
button is not disabled by `pagination.page === 1` (JoinHistory.jsx, line 210). -/
def previousEnabled (p : PageNumbers) : Bool :=
  controlsShown p && !p.page.same (JSNumber.ofInt 1)

/-- The button Next can be pressed: the controls are rendered and the button is
not disabled by `pagination.page === pagination.totalPages` (JoinHistory.jsx,
line 217). -/
def nextEnabled (p : PageNumbers) : Bool :=
  controlsShown p && !p.page.same p.totalPages

/-- Click on Previous: `handlePageChange(pagination.page - 1)` (JoinHistory.jsx,
line 209). -/
def previousClick (p : PageNumbers) : Option PageNumbers :=
  (p.page.plus (-1)).map (fun newPage => setPage newPage p)

/-- Click on Next: `handlePageChange(pagination.page + 1)` (JoinHistory.jsx,
line 216). -/
def nextClick (p : PageNumbers) : Option PageNumbers :=
  (p.page.plus 1).map (fun newPage => setPage newPage p)

/-- What `handleFilterChange` does to the two members: the updater
`prev => ({ ...prev, page: 1 })` (JoinHistory.jsx, line 65). -/
def pageAfterFilterChange (p : PageNumbers) : PageNumbers :=
  setPage (JSNumber.ofInt 1) p

/-- What `clearFilters` does to the two members: the updater
`prev => ({ ...prev, page: 1 })` (JoinHistory.jsx, line 70). -/
def pageAfterClearFilters (p : PageNumbers) : PageNumbers :=
  setPage (JSNumber.ofInt 1) p

/-- The bounds `1 <= page <= totalPages`. -/
def pageInBounds (p : PageNumbers) : Bool :=
  (JSNumber.ofInt 1).le p.page && p.page.le p.totalPages

/-! ### The dashboard snapshot (`src/pages/Dashboard.jsx`) -/

/-- State of the Dashboard view (Dashboard.jsx, lines 18-28). -/
structure DashboardView where
  loading : JSVal
  stats : JSVal
  activeFrequencies : JSVal
  privateFrequencies : JSVal
  dailyActiveData : JSVal
  userGrowthData : JSVal

/-- State of the Dashboard view at mount. -/
def initialDashboardView : DashboardView :=
  { loading := bool true
    stats := initialDashboardStats
    activeFrequencies := arr []
    privateFrequencies := arr []
    dailyActiveData := arr []
    userGrowthData := arr [] }

/-- The unwrapping `response?.data || response` (Dashboard.jsx, lines 90-94). -/
def unwrapResponse (response : JSVal) : JSVal := (response.optProp "data").or response

/-- The value `Array.isArray(v) ? v.length : 0`. -/
def lengthOrZero : JSVal → JSVal
  | arr items => num items.length
  | _ => num 0

/-- The value `Array.isArray(v) ? v.slice(0, 5) : []`. -/
def firstFiveOrEmpty : JSVal → JSVal
  | arr items => arr (items.take 5)
  | _ => arr []

/-- Handling of the five resolved responses in `fetchDashboardData`
(Dashboard.jsx, lines 90-114). Nothing here throws. -/
def applyDashboardResponses (userStatsResponse activeFreqResponse privateFreqResponse
    dailyActiveResponse userGrowthResponse : JSVal) (st : DashboardView) : DashboardView :=
  let userStats := unwrapResponse userStatsResponse
  let activeFreq := unwrapResponse activeFreqResponse
  let privateFreq := unwrapResponse privateFreqResponse
  let dailyActive := unwrapResponse dailyActiveResponse
  let userGrowth := unwrapResponse userGrowthResponse
  { st with
    stats := obj [("totalUsers", (userStats.optProp "total").or (num 0)),
      ("activeFrequencies", lengthOrZero activeFreq),
      ("privateFrequencies", lengthOrZero privateFreq),
      ("dailyActiveUsers", (userStats.optProp "dailyActive").or (num 0))]
    activeFrequencies := firstFiveOrEmpty activeFreq
    privateFrequencies := firstFiveOrEmpty privateFreq
    dailyActiveData := arr (arrayOrEmpty dailyActive)
    userGrowthData := arr (arrayOrEmpty userGrowth) }

/-- The function `fetchDashboardData` (Dashboard.jsx, lines 63-120). The five
arguments are the outcomes of the calls of the user and frequency services,
which are not part of these sources; `Promise.all` rejects when one of them
does. The `catch` branch only logs and `finally` clears `loading`. -/
def fetchDashboardData (userStats activeFreq privateFreq dailyActive userGrowth :
    Except String JSVal) (st : DashboardView) : DashboardView :=
  let started := { st with loading := bool true }
  let awaited : Except String (JSVal × JSVal × JSVal × JSVal × JSVal) := do
    let a ← userStats
    let b ← activeFreq
    let c ← privateFreq
    let d ← dailyActive
    let e ← userGrowth
    pure (a, b, c, d, e)
  let settled := match awaited with
    | .ok (a, b, c, d, e) => applyDashboardResponses a b c d e started
    | .error _ => started
  { settled with loading := bool false }

/-! ### The countdown of a private frequency (`src/hooks/useCountdown`) -/

/-- The value that the private-frequency timer reads from the countdown
(Dashboard.jsx, lines 154-164): `hours`, `minutes`, `seconds` and `expired`. -/
structure TimeLeft where
  hours : Int
  minutes : Int
  seconds : Int
  expired : Bool

/-- Modelled from the spec: the countdown evaluator of the hook `useCountdown`,
which `PrivateFrequencyTimer` calls and whose file `src/hooks/useCountdown` is
not among the sources. The spec gives it as the pure function
`evaluate(expiresAt, now)` on timestamps in milliseconds: `expired` is
`now >= expiresAt`; otherwise `expiresAt - now` is decomposed into whole hours,
the whole minutes of what is left and the whole seconds of what is left after
those, with no days and no cap on the hours. The spec does not say what the
three numbers are once expired; they are `0` here. -/
def evaluate (expiresAt now : Int) : TimeLeft :=
  if now ≥ expiresAt then
    { hours := 0, minutes := 0, seconds := 0, expired := true }
  else
    let d := expiresAt - now
    { hours := d / 3600000
      minutes := (d % 3600000) / 60000
      seconds := (d % 60000) / 1000
      expired := false }

/-- The text `String(n).padStart(2, '0')` of an integer. -/
def padTwo (n : Int) : String :=
  if (toString n).length < 2 then "0" ++ toString n else toString n

/-- What `PrivateFrequencyTimer` shows (Dashboard.jsx, lines 153-167): the tag
`Expired`, or the three numbers, each padded to two digits, with colons. -/
def privateFrequencyTimer (timeLeft : TimeLeft) : String :=
  if timeLeft.expired then "Expired"
  else padTwo timeLeft.hours ++ ":" ++ padTwo timeLeft.minutes ++ ":" ++ padTwo timeLeft.seconds

/-! ## Properties of the value operations -/

theorem strictEq_str_iff (v : JSVal) (s : String) : strictEq v (str s) = true ↔ v = str s := by
  cases v <;> simp [strictEq]

theorem lookup_setProp_self (k : String) (v : JSVal) (ps : Props) :
    lookup k (setProp k v ps) = v := by
  induction ps with
  | nil => simp [setProp, lookup]
  | cons kv rest ih =>
    obtain ⟨k', v'⟩ := kv
    by_cases h : k' = k <;> simp [setProp, lookup, h, ih]

theorem lookup_setProp_of_ne {k k' : String} (h : k ≠ k') (v : JSVal) (ps : Props) :
    lookup k' (setProp k v ps) = lookup k' ps := by
  induction ps with
  | nil => simp [setProp, lookup, h]
  | cons kv rest ih =>
    obtain ⟨k₁, v₁⟩ := kv
    by_cases h₁ : k₁ = k
    · subst h₁
      simp [setProp, lookup, h]
    · simp [setProp, lookup, h₁, ih]

theorem setProp_setProp_self (k : String) (v w : JSVal) (ps : Props) :
    setProp k v (setProp k w ps) = setProp k v ps := by
  induction ps with
  | nil => simp [setProp]
  | cons kv rest ih =>
    obtain ⟨k', v'⟩ := kv
    by_cases h : k' = k <;> simp [setProp, h, ih]

/-- A callback that turns every object into an object maps a list of objects
without throwing. -/
theorem mapArray_objects (f : JSVal → Except String JSVal) (g : Props → Props)
    (h : ∀ p, f (obj p) = .ok (obj (g p))) (ps : List Props) :
    mapArray f (ps.map obj) = .ok ((ps.map g).map obj) := by
  induction ps with
  | nil => rfl
  | cons p rest ih => simp [mapArray, h, ih]

theorem lookup_id_markUser (id : JSVal) (online : Bool) (p : Props) :
    lookup "_id" (markUser id online p) = lookup "_id" p := by
  unfold markUser
  split
  · exact lookup_setProp_of_ne (by decide) _ _
  · rfl

theorem lookup_isOnline_markUser (id : JSVal) (online : Bool) (p : Props)
    (h : strictEq (lookup "_id" p) id = true) :
    lookup "isOnline" (markUser id online p) = bool online := by
  simp [markUser, h, lookup_setProp_self]

theorem markUser_idem (id : JSVal) (online : Bool) (p : Props) :
    markUser id online (markUser id online p) = markUser id online p := by
  by_cases h : strictEq (lookup "_id" p) id = true
  · have h' : strictEq (lookup "_id" (setProp "isOnline" (bool online) p)) id = true := by
      rw [lookup_setProp_of_ne (by decide)]; exact h
    simp [markUser, h, h', setProp_setProp_self]
  · simp [markUser, h]

theorem markUser_of_no_match (id : JSVal) (online : Bool) (ps : List Props)
    (h : ∀ p ∈ ps, strictEq (lookup "_id" p) id = false) :
    ps.map (markUser id online) = ps := by
  induction ps with
  | nil => rfl
  | cons p rest ih =>
    have hp := h p (List.mem_cons_self _ _)
    have hrest := ih (fun q hq => h q (List.mem_cons_of_mem _ hq))
    simp [markUser, hp, hrest]

theorem statusChangedStep_obj (payload p : Props) :
    statusChangedStep (obj payload) (obj p) =
      .ok (obj (markUser (lookup "userId" payload)
        (strictEq (lookup "status" payload) (str "online")) p)) := by
  unfold statusChangedStep markUser
  by_cases h : strictEq (lookup "_id" p) (lookup "userId" payload) = true <;>
    simp [getProp, h, spreadWith, ownEntries, bind, Except.bind, pure, Except.pure]

theorem leftFrequencyStep_obj (payload p : Props) :
    leftFrequencyStep (obj payload) (obj p) =
      .ok (obj (markUser (lookup "userId" payload) false p)) := by
  unfold leftFrequencyStep markUser
  by_cases h : strictEq (lookup "_id" p) (lookup "userId" payload) = true <;>
    simp [getProp, h, spreadWith, ownEntries, bind, Except.bind, pure, Except.pure]

theorem onUserStatusChanged_objects (payload : Props) (users : List Props) :
    onUserStatusChanged (obj payload) (users.map obj) =
      .ok ((users.map (markUser (lookup "userId" payload)
        (strictEq (lookup "status" payload) (str "online")))).map obj) :=
  mapArray_objects _ _ (statusChangedStep_obj payload) users

theorem onUserLeftFrequency_objects (payload : Props) (users : List Props) :
    onUserLeftFrequency (obj payload) (users.map obj) =
      .ok ((users.map (markUser (lookup "userId" payload) false)).map obj) :=
  mapArray_objects _ _ (leftFrequencyStep_obj payload) users

theorem and_member_truthy (u : JSVal) (k : String) :
    ∃ g, (if u.truthy then u.getProp k else .ok u) = .ok g ∧
      g.truthy = (u.optProp k).truthy := by
  cases u with
  | bool b => cases b <;> simp [truthy, getProp, optProp]
  | num n => by_cases h : n = 0 <;> simp [truthy, getProp, optProp, h]
  | str s => by_cases h : s = "" <;> simp [truthy, getProp, optProp, h]
  | _ => simp [truthy, getProp, optProp]

theorem joinedGuard_truthy (data : JSVal) :
    ∃ g, joinedGuard data = .ok g ∧ g.truthy = (joinedId data).truthy := by
  cases data with
  | obj payload =>
    simpa [joinedGuard, joinedId, truthy, getProp, optProp, bind, Except.bind, pure,
      Except.pure] using and_member_truthy (lookup "user" payload) "_id"
  | bool b => cases b <;> simp [joinedGuard, joinedId, truthy, getProp, optProp, bind,
      Except.bind, pure, Except.pure]
  | num n =>
    by_cases h : n = 0 <;> simp [joinedGuard, joinedId, truthy, getProp, optProp, bind,
      Except.bind, pure, Except.pure, h]
  | str s =>
    by_cases h : s = "" <;> simp [joinedGuard, joinedId, truthy, getProp, optProp, bind,
      Except.bind, pure, Except.pure, h]
  | _ => simp [joinedGuard, joinedId, truthy, getProp, optProp, bind, Except.bind, pure,
      Except.pure]

theorem onUserJoinedFrequency_dropped (data : JSVal) (h : (joinedId data).truthy = false)
    (users : List JSVal) : onUserJoinedFrequency data users = .ok users := by
  obtain ⟨g, hg, ht⟩ := joinedGuard_truthy data
  simp [onUserJoinedFrequency, hg, ht, h, bind, Except.bind, pure, Except.pure]

theorem joinedFrequencyStep_obj (data : JSVal) (h : (joinedId data).truthy = true) (p : Props) :
    joinedFrequencyStep data (obj p) = .ok (obj (markUser (joinedId data) true p)) := by
  cases data with
  | obj payload =>
    cases hu : lookup "user" payload with
    | obj up =>
      unfold joinedFrequencyStep markUser
      by_cases hm : strictEq (lookup "_id" p) (lookup "_id" up) = true <;>
        simp [joinedId, getProp, optProp, hu, hm, spreadWith, ownEntries, bind, Except.bind,
          pure, Except.pure]
    | _ => simp [joinedId, optProp, hu, truthy] at h
  | _ => simp [joinedId, optProp, truthy] at h

theorem onUserJoinedFrequency_objects (data : JSVal) (h : (joinedId data).truthy = true)
    (users : List Props) :
    onUserJoinedFrequency data (users.map obj) =
      .ok ((users.map (markUser (joinedId data) true)).map obj) := by
  obtain ⟨g, hg, ht⟩ := joinedGuard_truthy data
  simp only [onUserJoinedFrequency, hg, bind, Except.bind, ht, h, if_true]
  exact mapArray_objects _ _ (joinedFrequencyStep_obj data h) users

theorem lookup_markUser_of_ne (id : JSVal) (online : Bool) (p : Props) {k : String}
    (h : k ≠ "isOnline") : lookup k (markUser id online p) = lookup k p := by
  unfold markUser
  split
  · exact lookup_setProp_of_ne (Ne.symm h) _ _
  · rfl

/-- After an updater has run, a user of the list that matches `id` is in the
new list with `isOnline` set and every other property as before. -/
theorem marked_user_mem (id : JSVal) (online : Bool) (users : List Props) (u : Props)
    (hu : u ∈ users) (hid : strictEq (lookup "_id" u) id = true) :
    ∃ v ∈ users.map (markUser id online),
      (∀ k, k ≠ "isOnline" → lookup k v = lookup k u) ∧
      lookup "isOnline" v = JSVal.bool online :=
  ⟨markUser id online u, List.mem_map_of_mem _ hu,
    fun _ hk => lookup_markUser_of_ne id online u hk, lookup_isOnline_markUser id online u hid⟩

theorem fetchUsers_resolved (getAllUsers : JSVal → Except String JSVal)
    (closure st : UsersView) (response : JSVal)
    (h : (fetchUsersParams closure >>= getAllUsers) = .ok response) :
    fetchUsers getAllUsers closure st = applyUsersResponse response st := by
  simp [fetchUsers, h]

theorem applyUsersResponse_bare (U : List JSVal) (t : Int) (st : UsersView) :
    applyUsersResponse (usersPayload U t) st =
      { st with users := U, pagination := spreadWith st.pagination "total" (num t) } := by
  by_cases h : t = 0 <;>
    simp [applyUsersResponse, usersPayload, optProp, lookup, JSVal.or, truthy, arrayOrEmpty, h]

theorem applyUsersResponse_enveloped (U : List JSVal) (t : Int) (st : UsersView) :
    applyUsersResponse (enveloped (usersPayload U t)) st =
      { st with users := U, pagination := spreadWith st.pagination "total" (num t) } := by
  by_cases h : t = 0 <;>
    simp [applyUsersResponse, enveloped, usersPayload, optProp, lookup, JSVal.or, truthy,
      arrayOrEmpty, h]

theorem applyUsersResponse_not_array (v : JSVal) (hv : v.isArray = false) (t : JSVal)
    (st : UsersView) {response : JSVal}
    (h : response = obj [("users", v), ("total", t)] ∨
      response = enveloped (obj [("users", v), ("total", t)])) :
    (applyUsersResponse response st).users = [] := by
  have key : arrayOrEmpty ((v.or (arr []))) = [] := by
    cases v with
    | arr items => simp [isArray] at hv
    | bool b => cases b <;> rfl
    | num n => by_cases hn : n = 0 <;> simp [JSVal.or, truthy, arrayOrEmpty, hn]
    | str s' => by_cases hs : s' = "" <;> simp [JSVal.or, truthy, arrayOrEmpty, hs]
    | _ => rfl
  rcases h with rfl | rfl
  · have hdata : (optProp (obj [("users", v), ("total", t)]) "data").or
        (obj [("users", v), ("total", t)]) = obj [("users", v), ("total", t)] := rfl
    simp only [applyUsersResponse, hdata]
    exact key
  · have hdata : (optProp (enveloped (obj [("users", v), ("total", t)])) "data").or
        (enveloped (obj [("users", v), ("total", t)])) = obj [("users", v), ("total", t)] := rfl
    simp only [applyUsersResponse, hdata]
    exact key

/-- A resolved fetch whose response carries the users array `U`, bare or in an
envelope, leaves exactly `U` as the user list. -/
theorem fetchUsers_users (getAllUsers : JSVal → Except String JSVal)
    (closure st : UsersView) (response : JSVal) (U : List JSVal) (t : Int)
    (h : (fetchUsersParams closure >>= getAllUsers) = .ok response)
    (hshape : response = usersPayload U t ∨ response = enveloped (usersPayload U t)) :
    (fetchUsers getAllUsers closure st).users = U := by
  rw [fetchUsers_resolved _ _ _ _ h]
  rcases hshape with rfl | rfl
  · rw [applyUsersResponse_bare]
  · rw [applyUsersResponse_enveloped]

theorem connectSockets_connected (c : Connection) (s : SocketService)
    (hs : s.socket = .socket c) (tokens : List JSVal) :
    connectSockets tokens s = (tokens.map (fun _ => c), s) := by
  induction tokens with
  | nil => rfl
  | cons token rest ih =>
    have h1 : connectSocket token s = (c, s) := by simp [connectSocket, hs]
    simp [connectSockets, h1, ih]

theorem connectSocket_fresh (token : JSVal) (s : SocketService)
    (hs : ∀ c, s.socket ≠ .socket c) :
    connectSocket token s =
      ({ serial := s.opened.length, token := token },
        { s with
          socket := .socket { serial := s.opened.length, token := token }
          opened := s.opened ++ [{ serial := s.opened.length, token := token }] }) := by
  cases h : s.socket with
  | socket c => exact absurd h (hs c)
  | undefined => simp [connectSocket, h]
  | null => simp [connectSocket, h]

theorem forall₂_map_self {α : Type} (R : α → α → Prop) (f : α → α) (h : ∀ u, R u (f u))
    (l : List α) : List.Forall₂ R l (l.map f) := by
  induction l with
  | nil => exact List.Forall₂.nil
  | cons u rest ih => exact List.Forall₂.cons (h u) ih

theorem markUser_of_ne (id : JSVal) (online : Bool) (p : Props)
    (h : strictEq (lookup "_id" p) id = false) : markUser id online p = p := by
  simp [markUser, h]

/-- The frame of a presence updater on one user: a user that does not match is
unchanged and every user keeps its properties other than `isOnline`. -/
theorem markUser_frame (id : JSVal) (online : Bool) (users : List Props) :
    List.Forall₂ (fun u v => (strictEq (lookup "_id" u) id = false → v = u) ∧
      ∀ k, k ≠ "isOnline" → lookup k v = lookup k u) users (users.map (markUser id online)) :=
  forall₂_map_self _ _ (fun u => ⟨markUser_of_ne id online u,
    fun _ hk => lookup_markUser_of_ne id online u hk⟩) users

theorem forall₂_frame_refl (id : JSVal) (users : List Props) :
    List.Forall₂ (fun u v => (strictEq (lookup "_id" u) id = false → v = u) ∧
      ∀ k, k ≠ "isOnline" → lookup k v = lookup k u) users users := by
  induction users with
  | nil => exact List.Forall₂.nil
  | cons u rest ih => exact List.Forall₂.cons ⟨fun _ => rfl, fun _ _ => rfl⟩ ih

theorem optProp_spreadWith_self (ps : Props) (k : String) (v : JSVal) :
    (spreadWith (obj ps) k v).optProp k = v := by
  simp [spreadWith, ownEntries, optProp, lookup_setProp_self]

theorem optProp_spreadWith_of_ne (ps : Props) {k k' : String} (h : k' ≠ k) (v : JSVal) :
    (spreadWith (obj ps) k v).optProp k' = lookup k' ps := by
  simp [spreadWith, ownEntries, optProp, lookup_setProp_of_ne (Ne.symm h)]

theorem fetchDashboardData_resolved (rs ra rp rd rg : JSVal) (st : DashboardView) :
    fetchDashboardData (.ok rs) (.ok ra) (.ok rp) (.ok rd) (.ok rg) st =
      { applyDashboardResponses rs ra rp rd rg { st with loading := JSVal.bool true } with
        loading := JSVal.bool false } := rfl

/-! ## The presence handlers -/

/-- C1. For every list of user objects and every `user_status_changed` payload
object, the handler returns a list of the same users in the same order (same
`_id` at every place) in which every user whose `_id` is strictly equal to the
payload's `userId` has `isOnline` true when `status` is the string `"online"`
and `isOnline` false for any other `status`. -/
theorem status_changed_sets_presence (users : List Props) (payload : Props) :
    ∃ next : List Props,
      onUserStatusChanged (obj payload) (users.map obj) = .ok (next.map obj) ∧
      next.map (lookup "_id") = users.map (lookup "_id") ∧
      ∀ u ∈ next, strictEq (lookup "_id" u) (lookup "userId" payload) = true →
        (lookup "status" payload = str "online" → lookup "isOnline" u = JSVal.bool true) ∧
        (lookup "status" payload ≠ str "online" → lookup "isOnline" u = JSVal.bool false) := by
  refine ⟨_, onUserStatusChanged_objects payload users, ?_, ?_⟩
  · simp [List.map_map, Function.comp_def, lookup_id_markUser]
  · intro u hu hmatch
    obtain ⟨p, -, rfl⟩ := List.mem_map.mp hu
    rw [lookup_id_markUser] at hmatch
    rw [lookup_isOnline_markUser _ _ _ hmatch]
    constructor
    · intro hs
      rw [(strictEq_str_iff _ _).mpr hs]
    · intro hs
      have : strictEq (lookup "status" payload) (str "online") = false := by
        rw [Bool.eq_false_iff]
        exact fun h => hs ((strictEq_str_iff _ _).mp h)
      rw [this]

/-- C2, as amended. For every list of user objects and every
`user_joined_frequency` payload whose `user._id` is truthy, the handler returns
a list of the same users in the same order in which every user whose `_id` is
strictly equal to `user._id` has `isOnline` true. -/
theorem joined_frequency_marks_online (users : List Props) (data : JSVal)
    (h : (joinedId data).truthy = true) :
    ∃ next : List Props,
      onUserJoinedFrequency data (users.map obj) = .ok (next.map obj) ∧
      next.map (lookup "_id") = users.map (lookup "_id") ∧
      ∀ u ∈ next, strictEq (lookup "_id" u) (joinedId data) = true →
        lookup "isOnline" u = JSVal.bool true := by
  refine ⟨_, onUserJoinedFrequency_objects data h users, ?_, ?_⟩
  · simp [List.map_map, Function.comp_def, lookup_id_markUser]
  · intro u hu hmatch
    obtain ⟨p, -, rfl⟩ := List.mem_map.mp hu
    rw [lookup_id_markUser] at hmatch
    exact lookup_isOnline_markUser _ _ _ hmatch

/-- Witness of C2 as amended: the payload `{ user: { _id: "u1" } }` on the
list `[{ _id: "u1", isOnline: false }]`. -/
theorem joined_frequency_marks_online_witness :
    (joinedId (obj [("user", obj [("_id", str "u1")])])).truthy = true ∧
    ∃ next : List Props,
      onUserJoinedFrequency (obj [("user", obj [("_id", str "u1")])])
          ([[("_id", str "u1"), ("isOnline", JSVal.bool false)]].map obj) = .ok (next.map obj) ∧
      next.map (lookup "_id") =
        [[("_id", str "u1"), ("isOnline", JSVal.bool false)]].map (lookup "_id") ∧
      ∀ u ∈ next, strictEq (lookup "_id" u) (joinedId (obj [("user", obj [("_id", str "u1")])])) = true →
        lookup "isOnline" u = JSVal.bool true :=
  ⟨rfl, joined_frequency_marks_online _ _ rfl⟩

/-- C2 as stated fails: the payload `{ user: { _id: "" } }` carries a nested
`user._id`, the empty string, which the guard of the handler takes for absent.
On the list `[{ _id: "", isOnline: false }]` the handler returns the list as it
was: the user whose `_id` is strictly equal to `user._id` keeps `isOnline`
false. -/
theorem joined_frequency_empty_id_not_marked :
    onUserJoinedFrequency (obj [("user", obj [("_id", str "")])])
        [obj [("_id", str ""), ("isOnline", JSVal.bool false)]] =
      .ok [obj [("_id", str ""), ("isOnline", JSVal.bool false)]] ∧
    strictEq (lookup "_id" [("_id", str ""), ("isOnline", JSVal.bool false)])
      (joinedId (obj [("user", obj [("_id", str "")])])) = true ∧
    lookup "isOnline" [("_id", str ""), ("isOnline", JSVal.bool false)] = JSVal.bool false :=
  ⟨rfl, rfl, rfl⟩

/-- C3. For every list of user objects and every `user_left_frequency` payload
object, the handler returns a list of the same users in the same order in which
every user whose `_id` is strictly equal to the payload's `userId` has
`isOnline` false, whatever it was before. In particular, after
`user_status_changed { userId: id, status: "online" }` has marked the users
with that id online, `user_left_frequency { userId: id }` leaves them
offline. -/
theorem left_frequency_marks_offline (users : List Props) (payload : Props) (id : JSVal) :
    (∃ next : List Props,
      onUserLeftFrequency (obj payload) (users.map obj) = .ok (next.map obj) ∧
      next.map (lookup "_id") = users.map (lookup "_id") ∧
      ∀ u ∈ next, strictEq (lookup "_id" u) (lookup "userId" payload) = true →
        lookup "isOnline" u = JSVal.bool false) ∧
    (∃ mid last : List Props,
      onUserStatusChanged (obj [("userId", id), ("status", str "online")]) (users.map obj) =
        .ok (mid.map obj) ∧
      (∀ u ∈ mid, strictEq (lookup "_id" u) id = true → lookup "isOnline" u = JSVal.bool true) ∧
      onUserLeftFrequency (obj [("userId", id)]) (mid.map obj) = .ok (last.map obj) ∧
      last.map (lookup "_id") = users.map (lookup "_id") ∧
      ∀ u ∈ last, strictEq (lookup "_id" u) id = true →
        lookup "isOnline" u = JSVal.bool false) := by
  have offline : ∀ (us : List Props) (x : JSVal),
      ∀ u ∈ us.map (markUser x false), strictEq (lookup "_id" u) x = true →
        lookup "isOnline" u = JSVal.bool false := by
    intro us x u hu hmatch
    obtain ⟨p, -, rfl⟩ := List.mem_map.mp hu
    rw [lookup_id_markUser] at hmatch
    exact lookup_isOnline_markUser _ _ _ hmatch
  constructor
  · refine ⟨_, onUserLeftFrequency_objects payload users, ?_, offline _ _⟩
    simp [List.map_map, Function.comp_def, lookup_id_markUser]
  · refine ⟨_, _, onUserStatusChanged_objects _ users, ?_,
      onUserLeftFrequency_objects _ _, ?_, ?_⟩
    · intro u hu hmatch
      obtain ⟨p, -, rfl⟩ := List.mem_map.mp hu
      have hp : strictEq (lookup "_id" p) id = true := by
        rw [lookup_id_markUser] at hmatch
        simpa [lookup] using hmatch
      have h := lookup_isOnline_markUser (lookup "userId" [("userId", id), ("status", str "online")])
        (strictEq (lookup "status" [("userId", id), ("status", str "online")]) (str "online")) p
        (by simpa [lookup] using hp)
      simpa [lookup, strictEq] using h
    · simp [List.map_map, Function.comp_def, lookup_id_markUser]
    · simpa [lookup] using offline
        (users.map (markUser (lookup "userId" [("userId", id), ("status", str "online")])
          (strictEq (lookup "status" [("userId", id), ("status", str "online")]) (str "online"))))
        id

/-- C4. A `user_joined_frequency` event whose payload has no nested user id
(`undefined`, `null`, `{}`, `{ user: null }` or `{ user: {} }`) makes no presence
update on any list: the handler returns, without throwing, the list it was
given. -/
theorem joined_frequency_without_id_dropped (users : List JSVal) :
    onUserJoinedFrequency undefined users = .ok users ∧
    onUserJoinedFrequency null users = .ok users ∧
    onUserJoinedFrequency (obj []) users = .ok users ∧
    onUserJoinedFrequency (obj [("user", null)]) users = .ok users ∧
    onUserJoinedFrequency (obj [("user", obj [])]) users = .ok users :=
  ⟨rfl, rfl, rfl, rfl, rfl⟩

/-- C5. Presence updates are idempotent. For every list of user objects, each
handler (`user_status_changed` and `user_left_frequency` with any payload
object, `user_joined_frequency` with any payload at all) returns a list, and
the same handler with the same payload on that list returns that list
again. -/
theorem presence_update_idempotent (users : List Props) (payload : Props) (data : JSVal) :
    (∃ next, onUserStatusChanged (obj payload) (users.map obj) = .ok next ∧
      onUserStatusChanged (obj payload) next = .ok next) ∧
    (∃ next, onUserLeftFrequency (obj payload) (users.map obj) = .ok next ∧
      onUserLeftFrequency (obj payload) next = .ok next) ∧
    (∃ next, onUserJoinedFrequency data (users.map obj) = .ok next ∧
      onUserJoinedFrequency data next = .ok next) := by
  refine ⟨⟨_, onUserStatusChanged_objects payload users, ?_⟩,
    ⟨_, onUserLeftFrequency_objects payload users, ?_⟩, ?_⟩
  · rw [onUserStatusChanged_objects]
    simp [List.map_map, Function.comp_def, markUser_idem]
  · rw [onUserLeftFrequency_objects]
    simp [List.map_map, Function.comp_def, markUser_idem]
  · by_cases h : (joinedId data).truthy = true
    · refine ⟨_, onUserJoinedFrequency_objects data h users, ?_⟩
      rw [onUserJoinedFrequency_objects data h]
      simp [List.map_map, Function.comp_def, markUser_idem]
    · have h' : (joinedId data).truthy = false := by simpa using h
      exact ⟨_, onUserJoinedFrequency_dropped data h' _, onUserJoinedFrequency_dropped data h' _⟩

/-! ## Snapshots and events -/

/-- C6, as amended. Event after snapshot wins. For every successfully fetched
snapshot (bare or enveloped) that contains a user `u`, and every `id` strictly
equal to `u._id`: after `fetchUsers` has applied the snapshot,
`user_status_changed { userId: id, status: "online" }` and, when `id` is
truthy, `user_joined_frequency { user: { _id: id } }` leave `u` in the list
with `isOnline` true and its other properties as in the snapshot;
`user_status_changed` with any other status and `user_left_frequency` leave it
with `isOnline` false. -/
theorem event_after_snapshot_wins (getAllUsers : JSVal → Except String JSVal)
    (closure st : UsersView) (response : JSVal) (snapshot : List Props) (t : Int)
    (u : Props) (id status : JSVal)
    (hres : (fetchUsersParams closure >>= getAllUsers) = .ok response)
    (hshape : response = usersPayload (snapshot.map obj) t ∨
      response = enveloped (usersPayload (snapshot.map obj) t))
    (hu : u ∈ snapshot) (hid : strictEq (lookup "_id" u) id = true) :
    (∃ next : List Props,
      onUserStatusChanged (obj [("userId", id), ("status", str "online")])
        (fetchUsers getAllUsers closure st).users = .ok (next.map obj) ∧
      ∃ v ∈ next, (∀ k, k ≠ "isOnline" → lookup k v = lookup k u) ∧
        lookup "isOnline" v = JSVal.bool true) ∧
    (id.truthy = true → ∃ next : List Props,
      onUserJoinedFrequency (obj [("user", obj [("_id", id)])])
        (fetchUsers getAllUsers closure st).users = .ok (next.map obj) ∧
      ∃ v ∈ next, (∀ k, k ≠ "isOnline" → lookup k v = lookup k u) ∧
        lookup "isOnline" v = JSVal.bool true) ∧
    (status ≠ str "online" → ∃ next : List Props,
      onUserStatusChanged (obj [("userId", id), ("status", status)])
        (fetchUsers getAllUsers closure st).users = .ok (next.map obj) ∧
      ∃ v ∈ next, (∀ k, k ≠ "isOnline" → lookup k v = lookup k u) ∧
        lookup "isOnline" v = JSVal.bool false) ∧
    (∃ next : List Props,
      onUserLeftFrequency (obj [("userId", id)])
        (fetchUsers getAllUsers closure st).users = .ok (next.map obj) ∧
      ∃ v ∈ next, (∀ k, k ≠ "isOnline" → lookup k v = lookup k u) ∧
        lookup "isOnline" v = JSVal.bool false) := by
  rw [fetchUsers_users getAllUsers closure st response _ t hres hshape]
  refine ⟨⟨_, onUserStatusChanged_objects _ snapshot, ?_⟩, fun htruthy => ⟨_,
    onUserJoinedFrequency_objects _ (by simpa [joinedId, optProp, lookup] using htruthy) snapshot,
    ?_⟩, fun hstatus => ⟨_, onUserStatusChanged_objects _ snapshot, ?_⟩,
    ⟨_, onUserLeftFrequency_objects _ snapshot, ?_⟩⟩
  · simpa [lookup, strictEq] using marked_user_mem id true snapshot u hu hid
  · simpa [joinedId, optProp, lookup] using marked_user_mem id true snapshot u hu hid
  · have hne : strictEq status (str "online") = false := by
      rw [Bool.eq_false_iff]
      exact fun h => hstatus ((strictEq_str_iff _ _).mp h)
    simpa [lookup, hne] using marked_user_mem id false snapshot u hu hid
  · simpa [lookup] using marked_user_mem id false snapshot u hu hid

/-- Witness of C6 as amended: the bare snapshot `[{ _id: "u1", isOnline: false }]`
fetched from the initial view, then the two online events for `"u1"`. -/
theorem event_after_snapshot_wins_witness :
    (∃ next : List Props,
      onUserStatusChanged (obj [("userId", str "u1"), ("status", str "online")])
        (fetchUsers (fun _ => .ok (usersPayload
          ([[("_id", str "u1"), ("isOnline", JSVal.bool false)]].map obj) 1))
          initialUsersView initialUsersView).users = .ok (next.map obj) ∧
      ∃ v ∈ next, (∀ k, k ≠ "isOnline" →
          lookup k v = lookup k [("_id", str "u1"), ("isOnline", JSVal.bool false)]) ∧
        lookup "isOnline" v = JSVal.bool true) ∧
    (∃ next : List Props,
      onUserJoinedFrequency (obj [("user", obj [("_id", str "u1")])])
        (fetchUsers (fun _ => .ok (usersPayload
          ([[("_id", str "u1"), ("isOnline", JSVal.bool false)]].map obj) 1))
          initialUsersView initialUsersView).users = .ok (next.map obj) ∧
      ∃ v ∈ next, (∀ k, k ≠ "isOnline" →
          lookup k v = lookup k [("_id", str "u1"), ("isOnline", JSVal.bool false)]) ∧
        lookup "isOnline" v = JSVal.bool true) :=
  have h := event_after_snapshot_wins (fun _ => .ok (usersPayload
      ([[("_id", str "u1"), ("isOnline", JSVal.bool false)]].map obj) 1))
    initialUsersView initialUsersView _ [[("_id", str "u1"), ("isOnline", JSVal.bool false)]] 1
    [("_id", str "u1"), ("isOnline", JSVal.bool false)] (str "u1") (str "offline")
    rfl (Or.inl rfl) (List.mem_singleton.mpr rfl) rfl
  ⟨h.1, h.2.1 rfl⟩

/-- C6 as stated fails for `user_joined_frequency`: the snapshot
`[{ _id: "", isOnline: false }]` is fetched and applied, then
`user_joined_frequency { user: { _id: "" } }` arrives for that user; the guard
of the handler drops the event and the user keeps `isOnline` false. -/
theorem joined_after_snapshot_empty_id_stays_offline :
    (fetchUsers (fun _ => .ok (usersPayload [obj [("_id", str ""), ("isOnline", JSVal.bool false)]] 1))
        initialUsersView initialUsersView).users =
      [obj [("_id", str ""), ("isOnline", JSVal.bool false)]] ∧
    strictEq (lookup "_id" [("_id", str ""), ("isOnline", JSVal.bool false)])
      (joinedId (obj [("user", obj [("_id", str "")])])) = true ∧
    onUserJoinedFrequency (obj [("user", obj [("_id", str "")])])
        (fetchUsers (fun _ => .ok (usersPayload [obj [("_id", str ""), ("isOnline", JSVal.bool false)]] 1))
          initialUsersView initialUsersView).users =
      .ok [obj [("_id", str ""), ("isOnline", JSVal.bool false)]] ∧
    lookup "isOnline" [("_id", str ""), ("isOnline", JSVal.bool false)] = JSVal.bool false :=
  ⟨rfl, rfl, rfl, rfl⟩

/-- C7, as amended. Applying a snapshot replaces the list. For every state and
every successfully fetched snapshot (bare or enveloped), after `fetchUsers` the
user list is exactly the users array of the snapshot, so a user that the
snapshot does not contain is not in the state any more, whatever the state held
before. -/
theorem snapshot_replaces_users (getAllUsers : JSVal → Except String JSVal)
    (closure st : UsersView) (response : JSVal) (U : List JSVal) (t : Int)
    (hres : (fetchUsersParams closure >>= getAllUsers) = .ok response)
    (hshape : response = usersPayload U t ∨ response = enveloped (usersPayload U t)) :
    (fetchUsers getAllUsers closure st).users = U ∧
    ∀ u2, u2 ∉ U → u2 ∉ (fetchUsers getAllUsers closure st).users := by
  have h := fetchUsers_users getAllUsers closure st response U t hres hshape
  exact ⟨h, fun u2 hu2 => by rw [h]; exact hu2⟩

/-- Witness of C7 as amended: the state holds `u2`, the snapshot holds only
`u1`. -/
theorem snapshot_replaces_users_witness :
    (fetchUsers (fun _ => .ok (usersPayload [obj [("_id", str "u1")]] 1)) initialUsersView
        { initialUsersView with users := [obj [("_id", str "u2")]] }).users =
      [obj [("_id", str "u1")]] ∧
    ∀ u2, u2 ∉ [obj [("_id", str "u1")]] →
      u2 ∉ (fetchUsers (fun _ => .ok (usersPayload [obj [("_id", str "u1")]] 1)) initialUsersView
        { initialUsersView with users := [obj [("_id", str "u2")]] }).users :=
  snapshot_replaces_users (fun _ => .ok (usersPayload [obj [("_id", str "u1")]] 1))
    initialUsersView { initialUsersView with users := [obj [("_id", str "u2")]] } _
    [obj [("_id", str "u1")]] 1 rfl (Or.inl rfl)

/-- C7 as stated fails: the state holds `u2` (online), the fetched snapshot
holds only `u1`; after `fetchUsers` the list is `[u1]` and `u1` is not `u2`, so
`u2` is gone. -/
theorem snapshot_drops_absent_user :
    (fetchUsers (fun _ => .ok (usersPayload [obj [("_id", str "u1"), ("isOnline", JSVal.bool false)]] 1))
        initialUsersView
        { initialUsersView with users := [obj [("_id", str "u2"), ("isOnline", JSVal.bool true)]] }).users =
      [obj [("_id", str "u1"), ("isOnline", JSVal.bool false)]] ∧
    strictEq (lookup "_id" [("_id", str "u1"), ("isOnline", JSVal.bool false)]) (str "u2") = false :=
  ⟨rfl, rfl⟩

/-- C8, as amended. A snapshot overrides an earlier live event. For every list
of user objects on which `user_left_frequency` has run, a following
successfully fetched snapshot (bare or enveloped) leaves exactly the users of
the snapshot: every user of the snapshot is in the list as the snapshot has it,
so a user that the snapshot holds with `isOnline` true is online again. -/
theorem snapshot_overrides_left_event (getAllUsers : JSVal → Except String JSVal)
    (closure st : UsersView) (response : JSVal) (prev snapshot : List Props) (t : Int)
    (payload : Props)
    (hres : (fetchUsersParams closure >>= getAllUsers) = .ok response)
    (hshape : response = usersPayload (snapshot.map obj) t ∨
      response = enveloped (usersPayload (snapshot.map obj) t)) :
    ∃ mid, onUserLeftFrequency (obj payload) (prev.map obj) = .ok mid ∧
      (fetchUsers getAllUsers closure { st with users := mid }).users = snapshot.map obj ∧
      ∀ u1 ∈ snapshot, lookup "isOnline" u1 = JSVal.bool true →
        ∃ v ∈ (fetchUsers getAllUsers closure { st with users := mid }).users,
          v = obj u1 ∧ v.optProp "isOnline" = JSVal.bool true := by
  refine ⟨_, onUserLeftFrequency_objects payload prev, ?_⟩
  have h := fetchUsers_users getAllUsers closure
    { st with users := (prev.map (markUser (lookup "userId" payload) false)).map obj }
    response _ t hres hshape
  refine ⟨h, fun u1 hu1 honline => ⟨obj u1, ?_, rfl, by simpa [optProp] using honline⟩⟩
  rw [h]
  exact List.mem_map_of_mem _ hu1

/-- Witness of C8 as amended: `u1` is online, `user_left_frequency` marks it
offline, the snapshot holds it online. -/
theorem snapshot_overrides_left_event_witness :
    ∃ mid, onUserLeftFrequency (obj [("userId", str "u1")])
        ([[("_id", str "u1"), ("isOnline", JSVal.bool true)]].map obj) = .ok mid ∧
      (fetchUsers (fun _ => .ok (usersPayload
          ([[("_id", str "u1"), ("isOnline", JSVal.bool true)]].map obj) 1))
        initialUsersView { initialUsersView with users := mid }).users =
        [[("_id", str "u1"), ("isOnline", JSVal.bool true)]].map obj ∧
      ∀ u1 ∈ [[("_id", str "u1"), ("isOnline", JSVal.bool true)]],
        lookup "isOnline" u1 = JSVal.bool true →
        ∃ v ∈ (fetchUsers (fun _ => .ok (usersPayload
            ([[("_id", str "u1"), ("isOnline", JSVal.bool true)]].map obj) 1))
          initialUsersView { initialUsersView with users := mid }).users,
          v = obj u1 ∧ v.optProp "isOnline" = JSVal.bool true :=
  snapshot_overrides_left_event (fun _ => .ok (usersPayload
      ([[("_id", str "u1"), ("isOnline", JSVal.bool true)]].map obj) 1))
    initialUsersView initialUsersView _ [[("_id", str "u1"), ("isOnline", JSVal.bool true)]]
    [[("_id", str "u1"), ("isOnline", JSVal.bool true)]] 1 [("userId", str "u1")]
    rfl (Or.inl rfl)

/-- C8 as stated fails: `u1` is online, `user_left_frequency { userId: "u1" }`
marks it offline, then `fetchUsers` applies a snapshot that holds `u1` with
`isOnline` true; no further event arrives and `u1` is online in the state. -/
theorem snapshot_reverts_left_event :
    onUserLeftFrequency (obj [("userId", str "u1")])
        [obj [("_id", str "u1"), ("isOnline", JSVal.bool true)]] =
      .ok [obj [("_id", str "u1"), ("isOnline", JSVal.bool false)]] ∧
    (fetchUsers (fun _ => .ok (usersPayload [obj [("_id", str "u1"), ("isOnline", JSVal.bool true)]] 1))
        initialUsersView
        { initialUsersView with users := [obj [("_id", str "u1"), ("isOnline", JSVal.bool false)]] }).users =
      [obj [("_id", str "u1"), ("isOnline", JSVal.bool true)]] :=
  ⟨rfl, rfl⟩

/-- C9, as amended. A presence event creates no record. For every list of user
objects none of which has an `_id` strictly equal to `x`, the online events for
`x` (`user_status_changed { userId: x, status: "online" }` and
`user_joined_frequency { user: { _id: x } }`) return the list as it was: it
still holds no user with that `_id`. -/
theorem online_event_creates_no_record (users : List Props) (x : JSVal)
    (h : ∀ p ∈ users, strictEq (lookup "_id" p) x = false) :
    onUserStatusChanged (obj [("userId", x), ("status", str "online")]) (users.map obj) =
      .ok (users.map obj) ∧
    onUserJoinedFrequency (obj [("user", obj [("_id", x)])]) (users.map obj) =
      .ok (users.map obj) := by
  constructor
  · rw [onUserStatusChanged_objects]
    have hx : lookup "userId" [("userId", x), ("status", str "online")] = x := by simp [lookup]
    rw [hx, markUser_of_no_match x _ users h]
  · have hx : joinedId (obj [("user", obj [("_id", x)])]) = x := by
      simp [joinedId, optProp, lookup]
    by_cases ht : x.truthy = true
    · rw [onUserJoinedFrequency_objects _ (by rw [hx]; exact ht), hx,
        markUser_of_no_match x _ users h]
    · exact onUserJoinedFrequency_dropped _ (by rw [hx]; simpa using ht) _

/-- Witness of C9 as amended: the list `[{ _id: "u2", isOnline: false }]` and
the id `"u1"`. -/
theorem online_event_creates_no_record_witness :
    onUserStatusChanged (obj [("userId", str "u1"), ("status", str "online")])
        ([[("_id", str "u2"), ("isOnline", JSVal.bool false)]].map obj) =
      .ok ([[("_id", str "u2"), ("isOnline", JSVal.bool false)]].map obj) ∧
    onUserJoinedFrequency (obj [("user", obj [("_id", str "u1")])])
        ([[("_id", str "u2"), ("isOnline", JSVal.bool false)]].map obj) =
      .ok ([[("_id", str "u2"), ("isOnline", JSVal.bool false)]].map obj) :=
  online_event_creates_no_record [[("_id", str "u2"), ("isOnline", JSVal.bool false)]] (str "u1")
    (fun p hp => by rw [List.mem_singleton.mp hp]; rfl)

/-- C9 as stated fails: the empty list holds no user with `_id` `"u1"`; after
`user_status_changed { userId: "u1", status: "online" }` and after
`user_joined_frequency { user: { _id: "u1" } }` the list is still empty, so it
holds no record for `"u1"`. -/
theorem first_sighting_creates_nothing :
    onUserStatusChanged (obj [("userId", str "u1"), ("status", str "online")]) [] = .ok [] ∧
    onUserJoinedFrequency (obj [("user", obj [("_id", str "u1")])]) [] = .ok [] :=
  ⟨rfl, rfl⟩

/-- C10. Dual-shape tolerance of the user fetch. Whenever the request can be
built, for every users array `U` and total `t`, `fetchUsers` ends in the same
state on the enveloped response `{ success: true, data: { users: U, total: t } }`
and on the bare response `{ users: U, total: t }`: the user list is `U` and the
pagination total is `t`. When `users` is missing or is not an array the list is
`[]`, and when `total` is missing the pagination total is `0`, in both
shapes. -/
theorem fetchUsers_dual_shape (closure st : UsersView) (params : JSVal)
    (hreq : fetchUsersParams closure = .ok params) (U : List JSVal) (t : Int) (v : JSVal)
    (hv : v.isArray = false) :
    fetchUsers (fun _ => .ok (enveloped (usersPayload U t))) closure st =
      fetchUsers (fun _ => .ok (usersPayload U t)) closure st ∧
    (fetchUsers (fun _ => .ok (usersPayload U t)) closure st).users = U ∧
    (fetchUsers (fun _ => .ok (usersPayload U t)) closure st).pagination.optProp "total" = num t ∧
    (fetchUsers (fun _ => .ok (obj [("users", v), ("total", num t)])) closure st).users = [] ∧
    (fetchUsers (fun _ => .ok (enveloped (obj [("users", v), ("total", num t)]))) closure st).users
      = [] ∧
    (fetchUsers (fun _ => .ok (obj [("total", num t)])) closure st).users = [] ∧
    (fetchUsers (fun _ => .ok (enveloped (obj [("total", num t)]))) closure st).users = [] ∧
    (fetchUsers (fun _ => .ok (obj [("users", arr U)])) closure st).pagination.optProp "total"
      = num 0 ∧
    (fetchUsers (fun _ => .ok (enveloped (obj [("users", arr U)]))) closure st).pagination.optProp
      "total" = num 0 := by
  have hres : ∀ r : JSVal, fetchUsers (fun _ => .ok r) closure st = applyUsersResponse r st :=
    fun r => fetchUsers_resolved _ closure st r (by simp [hreq, bind, Except.bind])
  refine ⟨?_, ?_, ?_, ?_, ?_, ?_, ?_, ?_, ?_⟩
  · rw [hres, hres, applyUsersResponse_bare, applyUsersResponse_enveloped]
  · rw [hres, applyUsersResponse_bare]
  · rw [hres, applyUsersResponse_bare]
    exact lookup_setProp_self _ _ _
  · rw [hres]
    exact applyUsersResponse_not_array v hv _ st (Or.inl rfl)
  · rw [hres]
    exact applyUsersResponse_not_array v hv _ st (Or.inr rfl)
  · rw [hres]
    rfl
  · rw [hres]
    rfl
  · rw [hres]
    exact lookup_setProp_self _ _ _
  · rw [hres]
    exact lookup_setProp_self _ _ _

/-- Witness of C10: from the initial view, the users array `[{ _id: "u1" }]`,
the total `5` and the non-array `"none"`. -/
theorem fetchUsers_dual_shape_witness :
    fetchUsersParams initialUsersView =
      .ok (obj [("page", num 1), ("limit", num 10), ("search", str "")]) ∧
    (str "none").isArray = false ∧
    fetchUsers (fun _ => .ok (enveloped (usersPayload [obj [("_id", str "u1")]] 5)))
        initialUsersView initialUsersView =
      fetchUsers (fun _ => .ok (usersPayload [obj [("_id", str "u1")]] 5))
        initialUsersView initialUsersView ∧
    (fetchUsers (fun _ => .ok (usersPayload [obj [("_id", str "u1")]] 5))
      initialUsersView initialUsersView).users = [obj [("_id", str "u1")]] ∧
    (fetchUsers (fun _ => .ok (usersPayload [obj [("_id", str "u1")]] 5))
      initialUsersView initialUsersView).pagination.optProp "total" = num 5 ∧
    (fetchUsers (fun _ => .ok (obj [("users", str "none"), ("total", num 5)]))
      initialUsersView initialUsersView).users = [] :=
  have h := fetchUsers_dual_shape initialUsersView initialUsersView _ rfl
    [obj [("_id", str "u1")]] 5 (str "none") rfl
  ⟨rfl, rfl, h.1, h.2.1, h.2.2.1, h.2.2.2.1⟩

/-! ## Response shapes and failed requests -/

/-- C11 fails on the code. The interceptor hands `fetchJoinHistory` the response
body, and `fetchJoinHistory` reads `response.data.success` from it. On the
enveloped body `{ success: true, data: { history: H, pagination: P } }` that
member is `undefined`, and on the bare body `{ history: H, pagination: P }` the
read throws and is caught: for every `H`, `P` and state, both calls end with
`joinHistory` and `pagination` as they were, not with `H` and `P`. From the
state at mount the history is still `[]` after the enveloped body with the
history `[{ _id: "h1" }]` has arrived. -/
theorem join_history_ignores_both_shapes (closure st : JoinHistoryView) (H : List JSVal)
    (P : JSVal) :
    ((fetchJoinHistory (fun _ => .ok (httpResponse (enveloped (historyPayload H P))))
        closure st).joinHistory = st.joinHistory ∧
      (fetchJoinHistory (fun _ => .ok (httpResponse (enveloped (historyPayload H P))))
        closure st).pagination = st.pagination) ∧
    ((fetchJoinHistory (fun _ => .ok (httpResponse (historyPayload H P)))
        closure st).joinHistory = st.joinHistory ∧
      (fetchJoinHistory (fun _ => .ok (httpResponse (historyPayload H P)))
        closure st).pagination = st.pagination) ∧
    (fetchJoinHistory (fun _ => .ok (httpResponse (enveloped (historyPayload
        [obj [("_id", str "h1")]] (obj [("page", num 1), ("limit", num 50),
          ("totalRecords", num 1), ("totalPages", num 1)])))))
      initialJoinHistoryView initialJoinHistoryView).joinHistory = arr [] := by
  refine ⟨?_, ?_, rfl⟩
  · cases h : joinHistoryParams closure <;>
      simp [fetchJoinHistory, h, apiGet, onResponseFulfilled, httpResponse, enveloped,
        historyPayload, applyJoinHistoryResponse, getProp, lookup, truthy, bind, Except.bind,
        pure, Except.pure]
  · cases h : joinHistoryParams closure <;>
      simp [fetchJoinHistory, h, apiGet, onResponseFulfilled, httpResponse,
        historyPayload, applyJoinHistoryResponse, getProp, lookup, bind, Except.bind]

/-- C12, as amended. Whenever the request can be built, for every report list
`R` and total `t`: on the enveloped value
`{ success: true, data: { reports: R, pagination: { total: t } } }`
`fetchReports` ends with `reports` equal to `R` and the pagination total equal
to `t`; on the bare value `{ reports: R, pagination: { total: t } }`, which has
no `data`, it ends with `reports` equal to `[]` and the pagination as it was.
In both cases `loading` ends false. -/
theorem fetchReports_enveloped_only (closure st : ReportsView) (params : JSVal)
    (hreq : reportsParams closure = .ok params) (R : List JSVal) (t : Int) :
    ((fetchReports (fun _ => .ok (enveloped (reportsPayload R t))) closure st).reports = arr R ∧
      (fetchReports (fun _ => .ok (enveloped (reportsPayload R t))) closure st).pagination.optProp
        "total" = num t ∧
      (fetchReports (fun _ => .ok (enveloped (reportsPayload R t))) closure st).loading =
        JSVal.bool false) ∧
    ((fetchReports (fun _ => .ok (reportsPayload R t)) closure st).reports = arr [] ∧
      (fetchReports (fun _ => .ok (reportsPayload R t)) closure st).pagination = st.pagination ∧
      (fetchReports (fun _ => .ok (reportsPayload R t)) closure st).loading = JSVal.bool false) := by
  constructor
  · by_cases ht : t = 0 <;>
      simp [fetchReports, hreq, applyReportsResponse, enveloped, reportsPayload, optProp, lookup,
        JSVal.or, truthy, spreadWith, lookup_setProp_self, ht, bind, Except.bind]
  · simp [fetchReports, hreq, applyReportsResponse, reportsPayload, optProp, lookup, truthy,
      bind, Except.bind]

/-- Witness of C12 as amended: from the view at mount, the report list
`[{ _id: "r1" }]` and the total `1`. -/
theorem fetchReports_enveloped_only_witness :
    reportsParams initialReportsView = .ok (obj [("page", num 1), ("limit", num 20)]) ∧
    ((fetchReports (fun _ => .ok (enveloped (reportsPayload [obj [("_id", str "r1")]] 1)))
        initialReportsView initialReportsView).reports = arr [obj [("_id", str "r1")]] ∧
      (fetchReports (fun _ => .ok (enveloped (reportsPayload [obj [("_id", str "r1")]] 1)))
        initialReportsView initialReportsView).pagination.optProp "total" = num 1 ∧
      (fetchReports (fun _ => .ok (enveloped (reportsPayload [obj [("_id", str "r1")]] 1)))
        initialReportsView initialReportsView).loading = JSVal.bool false) :=
  ⟨rfl, (fetchReports_enveloped_only initialReportsView initialReportsView _ rfl
    [obj [("_id", str "r1")]] 1).1⟩

/-- C12 as stated fails on the bare shape: from the view at mount, `getReports`
resolves to `{ reports: [{ _id: "r1" }], pagination: { total: 1 } }`;
`fetchReports` ends with `reports` equal to `[]`, not to the list received, and
with the total still `0`. -/
theorem fetchReports_bare_gives_empty :
    (fetchReports (fun _ => .ok (reportsPayload [obj [("_id", str "r1")]] 1))
      initialReportsView initialReportsView).reports = arr [] ∧
    (fetchReports (fun _ => .ok (reportsPayload [obj [("_id", str "r1")]] 1))
      initialReportsView initialReportsView).pagination.optProp "total" = num 0 :=
  ⟨rfl, rfl⟩

/-- C13. A failed user fetch resolves to an empty result and is not propagated.
For every prior state, when the request of `fetchUsers` fails (the parameters
cannot be read or `getAllUsers` rejects), `fetchUsers` still returns a state:
the user list is `[]`, and the pagination and the search text are as they
were. -/
theorem fetchUsers_failure_empties (getAllUsers : JSVal → Except String JSVal)
    (closure st : UsersView) (e : String)
    (hfail : (fetchUsersParams closure >>= getAllUsers) = .error e) :
    (fetchUsers getAllUsers closure st).users = [] ∧
    (fetchUsers getAllUsers closure st).pagination = st.pagination ∧
    (fetchUsers getAllUsers closure st).searchText = st.searchText := by
  simp [fetchUsers, hfail]

/-- Witness of C13: the state holds one user on page 2 and `getAllUsers`
rejects. -/
theorem fetchUsers_failure_empties_witness :
    (fetchUsers (fun _ => .error "Network Error") initialUsersView
      { users := [obj [("_id", str "u1")]],
        pagination := obj [("current", num 2), ("pageSize", num 10), ("total", num 11)],
        searchText := str "a" }).users = [] ∧
    (fetchUsers (fun _ => .error "Network Error") initialUsersView
      { users := [obj [("_id", str "u1")]],
        pagination := obj [("current", num 2), ("pageSize", num 10), ("total", num 11)],
        searchText := str "a" }).pagination =
      obj [("current", num 2), ("pageSize", num 10), ("total", num 11)] ∧
    (fetchUsers (fun _ => .error "Network Error") initialUsersView
      { users := [obj [("_id", str "u1")]],
        pagination := obj [("current", num 2), ("pageSize", num 10), ("total", num 11)],
        searchText := str "a" }).searchText = str "a" :=
  fetchUsers_failure_empties (fun _ => .error "Network Error") initialUsersView _
    "Network Error" rfl

/-- C14 fails on the code. When the request of `fetchJoinHistory` fails, the
call returns a state with `loading` false, but the `catch` branch only logs:
`joinHistory` and `pagination` are as they were before the call, so a history
that was not empty is not emptied. -/
theorem fetchJoinHistory_failure_keeps_history (transport : JSVal → Except String JSVal)
    (closure st : JoinHistoryView) (e : String)
    (hfail : (joinHistoryParams closure >>= fun params =>
      apiGet transport (obj [("params", params)])) = .error e) :
    (fetchJoinHistory transport closure st).loading = JSVal.bool false ∧
    (fetchJoinHistory transport closure st).joinHistory = st.joinHistory ∧
    (fetchJoinHistory transport closure st).pagination = st.pagination := by
  cases hp : joinHistoryParams closure with
  | error e' => simp [fetchJoinHistory, hp, bind, Except.bind]
  | ok params =>
    have ha : apiGet transport (obj [("params", params)]) = .error e := by
      simpa [hp, bind, Except.bind] using hfail
    simp [fetchJoinHistory, hp, ha, bind, Except.bind]

/-- The failing input of C14: the view has taken the history `[{ _id: "h1" }]`
from an earlier response, whose awaited value had a truthy `data.success`;
then the transport fails, and the history is still `[{ _id: "h1" }]`. -/
theorem fetchJoinHistory_failure_keeps_history_witness :
    (fetchJoinHistory (fun _ => .ok (httpResponse (obj [("data",
        enveloped (historyPayload [obj [("_id", str "h1")]] (obj [("page", num 1)])))])))
      initialJoinHistoryView initialJoinHistoryView).joinHistory =
      arr [obj [("_id", str "h1")]] ∧
    (fetchJoinHistory (fun _ => .error "Network Error") initialJoinHistoryView
      (fetchJoinHistory (fun _ => .ok (httpResponse (obj [("data",
          enveloped (historyPayload [obj [("_id", str "h1")]] (obj [("page", num 1)])))])))
        initialJoinHistoryView initialJoinHistoryView)).joinHistory =
      arr [obj [("_id", str "h1")]] ∧
    (fetchJoinHistory (fun _ => .error "Network Error") initialJoinHistoryView
      (fetchJoinHistory (fun _ => .ok (httpResponse (obj [("data",
          enveloped (historyPayload [obj [("_id", str "h1")]] (obj [("page", num 1)])))])))
        initialJoinHistoryView initialJoinHistoryView)).loading = JSVal.bool false :=
  have h := fetchJoinHistory_failure_keeps_history (fun _ => .error "Network Error")
    initialJoinHistoryView
    (fetchJoinHistory (fun _ => .ok (httpResponse (obj [("data",
        enveloped (historyPayload [obj [("_id", str "h1")]] (obj [("page", num 1)])))])))
      initialJoinHistoryView initialJoinHistoryView)
    "Network Error" rfl
  ⟨rfl, h.2.1, h.1⟩

/-! ## The socket service -/

/-- C15. `connectSocket` is idempotent and keeps a single connection. From a
service that holds no connection, a run of `connectSocket` calls with any
tokens and nothing in between makes exactly one connection, with the token of
the first call; every call returns that connection, `getSocket` returns it
afterwards, and nothing is disconnected. When the service already holds a
connection, a run of calls makes none and every call returns the one held. -/
theorem connectSocket_single_connection (s : SocketService)
    (hs : ∀ c, s.socket ≠ .socket c) (token : JSVal) (rest : List JSVal) :
    ((connectSockets (token :: rest) s).2.opened =
        s.opened ++ [{ serial := s.opened.length, token := token }] ∧
      (connectSockets (token :: rest) s).1.length = (token :: rest).length ∧
      (∀ r ∈ (connectSockets (token :: rest) s).1,
        r = { serial := s.opened.length, token := token }) ∧
      getSocket (connectSockets (token :: rest) s).2 =
        .socket { serial := s.opened.length, token := token } ∧
      (connectSockets (token :: rest) s).2.closed = s.closed) ∧
    (∀ (held : Connection) (opened closed : List Connection) (tokens : List JSVal),
      connectSockets tokens { socket := .socket held, opened := opened, closed := closed } =
        (tokens.map (fun _ => held),
          { socket := .socket held, opened := opened, closed := closed })) := by
  constructor
  · have h1 := connectSocket_fresh token s hs
    have h2 := connectSockets_connected { serial := s.opened.length, token := token }
      (connectSocket token s).2 (by rw [h1]) rest
    simp only [connectSockets, h2]
    rw [h1]
    simp [getSocket]
  · intro held opened closed tokens
    exact connectSockets_connected held _ rfl tokens

/-- Witness of C15: from the service as loaded, three calls with the tokens
`"a"`, `undefined` and `"b"`. -/
theorem connectSocket_single_connection_witness :
    (connectSockets [str "a", undefined, str "b"] initialSocketService).2.opened =
      [{ serial := 0, token := str "a" }] ∧
    (connectSockets [str "a", undefined, str "b"] initialSocketService).1.length = 3 ∧
    (∀ r ∈ (connectSockets [str "a", undefined, str "b"] initialSocketService).1,
      r = { serial := 0, token := str "a" }) ∧
    getSocket (connectSockets [str "a", undefined, str "b"] initialSocketService).2 =
      .socket { serial := 0, token := str "a" } ∧
    (connectSockets [str "a", undefined, str "b"] initialSocketService).2.closed = [] :=
  (connectSocket_single_connection initialSocketService
    (fun _ h => SocketSlot.noConfusion h) (str "a") [undefined, str "b"]).1

/-- C16. `disconnectSocket` tears down and clears the singleton. When the
service holds a connection, `disconnectSocket` calls its `disconnect()` and
stores `null`, so `getSocket` returns no connection; the next
`connectSocket(token)` makes a connection with that token, returns it and
stores it, and this connection is not the one torn down when that one was
among the connections made before. When the service holds no connection
(`undefined` or `null`), `disconnectSocket` leaves the service as it is. -/
theorem disconnectSocket_clears (held : Connection) (opened closed : List Connection)
    (token : JSVal) :
    disconnectSocket { socket := .socket held, opened := opened, closed := closed } =
      { socket := .null, opened := opened, closed := closed ++ [held] } ∧
    getSocket (disconnectSocket { socket := .socket held, opened := opened, closed := closed }) =
      .null ∧
    connectSocket token
        (disconnectSocket { socket := .socket held, opened := opened, closed := closed }) =
      ({ serial := opened.length, token := token },
        { socket := .socket { serial := opened.length, token := token },
          opened := opened ++ [{ serial := opened.length, token := token }],
          closed := closed ++ [held] }) ∧
    (held.serial < opened.length →
      (connectSocket token
        (disconnectSocket { socket := .socket held, opened := opened, closed := closed })).1 ≠
        held) ∧
    disconnectSocket { socket := .undefined, opened := opened, closed := closed } =
      { socket := .undefined, opened := opened, closed := closed } ∧
    disconnectSocket { socket := .null, opened := opened, closed := closed } =
      { socket := .null, opened := opened, closed := closed } := by
  refine ⟨rfl, rfl, rfl, ?_, rfl, rfl⟩
  intro hlt heq
  have hserial : opened.length = held.serial := congrArg Connection.serial heq
  omega

/-! ## Dashboard statistics -/

/-- C17 fails on the code for a missing member. For every `dashboard_stats`
payload object the handler stores the record of the four members as the
payload has them, so a member that the payload lacks is `undefined` in the
record, not `0`: the payload `{ totalUsers: 5 }` on the statistics at mount
gives `totalUsers` 5 and the three other members `undefined`. -/
theorem dashboard_stats_missing_member_undefined (payload : Props) (prevStats : JSVal) :
    onDashboardStats (obj payload) prevStats =
      .ok (obj [("totalUsers", lookup "totalUsers" payload),
        ("activeFrequencies", lookup "activeFrequencies" payload),
        ("privateFrequencies", lookup "privateFrequencies" payload),
        ("dailyActiveUsers", lookup "dailyActiveUsers" payload)]) ∧
    onDashboardStats (obj [("totalUsers", num 5)]) initialDashboardStats =
      .ok (obj [("totalUsers", num 5), ("activeFrequencies", undefined),
        ("privateFrequencies", undefined), ("dailyActiveUsers", undefined)]) :=
  ⟨rfl, rfl⟩

/-- C18, as amended. A `dashboard_stats` event whose payload is neither `null`
nor absent is a flat, last-writer-wins overwrite. For every such payload there
is one record, with exactly the four members and each of them read from the
payload, that the handler returns and the view holds afterwards for every
previous record, whether that record came from the snapshot fetch, from the
state at mount or from an earlier event: no member keeps the value it had. -/
theorem dashboard_stats_overwrites (data : JSVal) (hnull : data ≠ JSVal.null)
    (habsent : data ≠ JSVal.undefined) :
    ∃ next : Props,
      (∀ prev, onDashboardStats data prev = .ok (obj next) ∧ statsAfter data prev = obj next) ∧
      (∀ earlier prev, statsAfter data (statsAfter earlier prev) = obj next) ∧
      next.map Prod.fst =
        ["totalUsers", "activeFrequencies", "privateFrequencies", "dailyActiveUsers"] ∧
      ∀ k ∈ next.map Prod.fst, lookup k next = data.optProp k := by
  have hok : ∀ prev, onDashboardStats data prev =
      .ok (obj [("totalUsers", data.optProp "totalUsers"),
        ("activeFrequencies", data.optProp "activeFrequencies"),
        ("privateFrequencies", data.optProp "privateFrequencies"),
        ("dailyActiveUsers", data.optProp "dailyActiveUsers")]) := by
    intro prev
    cases data with
    | null => exact absurd rfl hnull
    | undefined => exact absurd rfl habsent
    | _ => rfl
  have hafter : ∀ prev, statsAfter data prev =
      obj [("totalUsers", data.optProp "totalUsers"),
        ("activeFrequencies", data.optProp "activeFrequencies"),
        ("privateFrequencies", data.optProp "privateFrequencies"),
        ("dailyActiveUsers", data.optProp "dailyActiveUsers")] := by
    intro prev
    simp only [statsAfter, hok]
  refine ⟨_, fun prev => ⟨hok prev, hafter prev⟩, fun _ _ => hafter _, rfl, ?_⟩
  intro k hk
  simp only [List.map, List.mem_cons, List.mem_singleton, List.not_mem_nil, or_false] at hk
  rcases hk with rfl | rfl | rfl | rfl <;> simp [lookup]

/-- Witness of C18 as amended: the payload
`{ totalUsers: 5, activeFrequencies: 2, privateFrequencies: 1, dailyActiveUsers: 3 }`,
which is neither `null` nor absent; on the statistics at mount the view holds
the payload's four members afterwards. -/
theorem dashboard_stats_overwrites_witness :
    (∃ next : Props, ∀ prev,
      onDashboardStats (obj [("totalUsers", num 5), ("activeFrequencies", num 2),
          ("privateFrequencies", num 1), ("dailyActiveUsers", num 3)]) prev = .ok (obj next) ∧
        statsAfter (obj [("totalUsers", num 5), ("activeFrequencies", num 2),
          ("privateFrequencies", num 1), ("dailyActiveUsers", num 3)]) prev = obj next) ∧
    statsAfter (obj [("totalUsers", num 5), ("activeFrequencies", num 2),
        ("privateFrequencies", num 1), ("dailyActiveUsers", num 3)]) initialDashboardStats =
      obj [("totalUsers", num 5), ("activeFrequencies", num 2),
        ("privateFrequencies", num 1), ("dailyActiveUsers", num 3)] :=
  ⟨(dashboard_stats_overwrites (obj [("totalUsers", num 5), ("activeFrequencies", num 2),
      ("privateFrequencies", num 1), ("dailyActiveUsers", num 3)])
      (fun e => JSVal.noConfusion e) (fun e => JSVal.noConfusion e)).elim
      (fun next h => ⟨next, h.1⟩),
    rfl⟩

/-- C18 as stated fails for the payload `null` (and for an absent payload):
reading `data.totalUsers` throws before `setStats` is called, so the view holds
the previous record afterwards. After the event the record is the one at mount
when that was the previous one and `{ totalUsers: 7, ... }` when that was: every
member keeps the value it had. -/
theorem dashboard_stats_null_payload_keeps_previous :
    onDashboardStats null initialDashboardStats =
      .error "TypeError: cannot read properties of null" ∧
    statsAfter null initialDashboardStats = initialDashboardStats ∧
    statsAfter null (obj [("totalUsers", num 7), ("activeFrequencies", num 2),
        ("privateFrequencies", num 1), ("dailyActiveUsers", num 3)]) =
      obj [("totalUsers", num 7), ("activeFrequencies", num 2),
        ("privateFrequencies", num 1), ("dailyActiveUsers", num 3)] ∧
    (statsAfter null initialDashboardStats).optProp "totalUsers" = num 0 ∧
    (statsAfter null (obj [("totalUsers", num 7), ("activeFrequencies", num 2),
        ("privateFrequencies", num 1), ("dailyActiveUsers", num 3)])).optProp "totalUsers" =
      num 7 ∧
    statsAfter undefined initialDashboardStats = initialDashboardStats :=
  ⟨rfl, rfl, rfl, rfl, rfl, rfl⟩

/-! ## Malformed presence events -/

/-- C19 fails on the code. `user_status_changed` and `user_left_frequency` read
`data.userId` with no guard: on a list that holds a user object, the updater
of either handler throws a `TypeError` for the payload `null` and for an
absent payload (`undefined`), where the handler of `user_joined_frequency`
guards the payload and returns the list as it was. For the payload `{}` the
`userId` is `undefined`, which is strictly equal to the `_id` of a user that
has none: `user_status_changed {}` turns `[{ name: "x" }]` into
`[{ name: "x", isOnline: false }]`. -/
theorem unguarded_handlers_throw_on_missing_payload (u : Props) (rest : List JSVal) :
    onUserStatusChanged null (obj u :: rest) =
      .error "TypeError: cannot read properties of null" ∧
    onUserStatusChanged undefined (obj u :: rest) =
      .error "TypeError: cannot read properties of undefined" ∧
    onUserLeftFrequency null (obj u :: rest) =
      .error "TypeError: cannot read properties of null" ∧
    onUserLeftFrequency undefined (obj u :: rest) =
      .error "TypeError: cannot read properties of undefined" ∧
    onUserJoinedFrequency null (obj u :: rest) = .ok (obj u :: rest) ∧
    onUserJoinedFrequency undefined (obj u :: rest) = .ok (obj u :: rest) ∧
    onUserStatusChanged (obj []) [obj [("name", str "x")]] =
      .ok [obj [("name", str "x"), ("isOnline", JSVal.bool false)]] ∧
    onUserLeftFrequency (obj []) [obj [("name", str "x")]] =
      .ok [obj [("name", str "x"), ("isOnline", JSVal.bool false)]] :=
  ⟨rfl, rfl, rfl, rfl, rfl, rfl, rfl, rfl⟩

/-! ## Resync triggers -/

/-- C20. Resync triggers of the user list. With the listeners of the Users view
registered (once, or again after a cleanup), every `connect` notification of
the socket causes exactly one `fetchUsers` call, whether the document is
hidden or not, and every `visibilitychange` notification of the document
causes one `fetchUsers` call when the document is not hidden and none when it
is hidden. -/
theorem resync_triggers (hidden : Bool) :
    fetchUsersCallsOn hidden "connect" (registerSocketListeners []) = 1 ∧
    fetchUsersCallsOn hidden "connect"
      (registerSocketListeners (unregisterSocketListeners (registerSocketListeners []))) = 1 ∧
    (fetchUsersCallsOn hidden "visibilitychange" (registerVisibilityListener []) = 1 ↔
      hidden = false) ∧
    (fetchUsersCallsOn hidden "visibilitychange" (registerVisibilityListener []) = 0 ↔
      hidden = true) := by
  cases hidden <;> decide

/-! ## Disconnect, countdown and the frame of the presence handlers -/

/-- C21. A transport `disconnect` notification does not clear presence. With
the listeners of the Users view registered, a `disconnect` notification calls
the `disconnect` listener and no other, that listener leaves the user list, the
pagination and the search text of every state exactly as they were, and the
notification causes no `fetchUsers` call. -/
theorem disconnect_keeps_presence (st : UsersView) (hidden : Bool) :
    notified "disconnect" (registerSocketListeners []) = [UsersListener.disconnect] ∧
    onDisconnect st = st ∧
    (onDisconnect st).users = st.users ∧
    (onDisconnect st).pagination = st.pagination ∧
    (onDisconnect st).searchText = st.searchText ∧
    fetchUsersCallsOn hidden "disconnect" (registerSocketListeners []) = 0 :=
  ⟨rfl, rfl, rfl, rfl, rfl, by cases hidden <;> rfl⟩

/-- C22. The countdown evaluator, for all timestamps `expiresAt` and `now` in
milliseconds: `expired` is true if and only if `now >= expiresAt`; when
`now < expiresAt`, with `d = expiresAt - now`, the seconds are
`floor(d / 1000) mod 60`, the minutes `floor(d / 60000) mod 60` and the hours
`floor(d / 3600000)`, with no cap; `d = 3661000` gives hours 1, minutes 1,
seconds 1 and not expired, which the timer shows as `01:01:01`, and
`now = expiresAt` gives expired. -/
theorem countdown_evaluate (expiresAt now : Int) :
    ((evaluate expiresAt now).expired = true ↔ now ≥ expiresAt) ∧
    (now < expiresAt →
      (evaluate expiresAt now).seconds = ((expiresAt - now) / 1000) % 60 ∧
      (evaluate expiresAt now).minutes = ((expiresAt - now) / 60000) % 60 ∧
      (evaluate expiresAt now).hours = (expiresAt - now) / 3600000) ∧
    evaluate expiresAt (expiresAt - 3661000) =
      { hours := 1, minutes := 1, seconds := 1, expired := false } ∧
    privateFrequencyTimer (evaluate expiresAt (expiresAt - 3661000)) = "01:01:01" ∧
    (evaluate expiresAt expiresAt).expired = true ∧
    (evaluate expiresAt (expiresAt - 360000000)).hours = 100 := by
  have h3661 : ¬ (expiresAt - 3661000 ≥ expiresAt) := by omega
  have h100 : ¬ (expiresAt - 360000000 ≥ expiresAt) := by omega
  have hd1 : expiresAt - (expiresAt - 3661000) = 3661000 := by omega
  have hd2 : expiresAt - (expiresAt - 360000000) = 360000000 := by omega
  have hone : evaluate expiresAt (expiresAt - 3661000) =
      { hours := 1, minutes := 1, seconds := 1, expired := false } := by
    simp only [evaluate, h3661, if_false, hd1]
    rfl
  refine ⟨?_, ?_, hone, ?_, ?_, ?_⟩
  · by_cases h : now ≥ expiresAt <;> simp [evaluate, h]
  · intro hlt
    have h : ¬ (now ≥ expiresAt) := by omega
    simp only [evaluate, h, if_false]
    refine ⟨?_, ?_, trivial⟩ <;> omega
  · rw [hone]
    decide
  · simp [evaluate]
  · simp only [evaluate, h100, if_false, hd2]
    rfl

/-- C23. Presence event handlers change nothing but `isOnline` of the matching
users. For every list of user objects and every presence event
(`user_status_changed` and `user_left_frequency` with a payload object,
`user_joined_frequency` with any payload), the handler returns a list of the
same length with the same `_id` at every place, in which, place by place, a
user whose `_id` is not strictly equal to the user id of the event is
unchanged and every user keeps all its properties other than `isOnline`. -/
theorem presence_handlers_frame (users : List Props) (payload : Props) (data : JSVal) :
    (∃ next : List Props,
      onUserStatusChanged (obj payload) (users.map obj) = .ok (next.map obj) ∧
      next.length = users.length ∧
      next.map (lookup "_id") = users.map (lookup "_id") ∧
      List.Forall₂ (fun u v =>
        (strictEq (lookup "_id" u) (lookup "userId" payload) = false → v = u) ∧
        ∀ k, k ≠ "isOnline" → lookup k v = lookup k u) users next) ∧
    (∃ next : List Props,
      onUserLeftFrequency (obj payload) (users.map obj) = .ok (next.map obj) ∧
      next.length = users.length ∧
      next.map (lookup "_id") = users.map (lookup "_id") ∧
      List.Forall₂ (fun u v =>
        (strictEq (lookup "_id" u) (lookup "userId" payload) = false → v = u) ∧
        ∀ k, k ≠ "isOnline" → lookup k v = lookup k u) users next) ∧
    (∃ next : List Props,
      onUserJoinedFrequency data (users.map obj) = .ok (next.map obj) ∧
      next.length = users.length ∧
      next.map (lookup "_id") = users.map (lookup "_id") ∧
      List.Forall₂ (fun u v =>
        (strictEq (lookup "_id" u) (joinedId data) = false → v = u) ∧
        ∀ k, k ≠ "isOnline" → lookup k v = lookup k u) users next) := by
  refine ⟨⟨_, onUserStatusChanged_objects payload users, ?_, ?_, markUser_frame _ _ users⟩,
    ⟨_, onUserLeftFrequency_objects payload users, ?_, ?_, markUser_frame _ _ users⟩, ?_⟩
  · simp
  · simp [List.map_map, Function.comp_def, lookup_id_markUser]
  · simp
  · simp [List.map_map, Function.comp_def, lookup_id_markUser]
  · by_cases h : (joinedId data).truthy = true
    · refine ⟨_, onUserJoinedFrequency_objects data h users, ?_, ?_, markUser_frame _ _ users⟩
      · simp
      · simp [List.map_map, Function.comp_def, lookup_id_markUser]
    · have h' : (joinedId data).truthy = false := by simpa using h
      exact ⟨users, onUserJoinedFrequency_dropped data h' _, rfl, rfl, forall₂_frame_refl _ users⟩

/-! ## Resync parameters and navigation -/

/-- C24 fails on the code. The resync that the `connect` listener and
`handleVisibilityChange` start asks the user service for page 1, page size 10
and an empty search text, the values of the state at mount, whatever the view
holds when the notification arrives. With the view on page 2 of 11 users, the
resync puts the users of page 1 into the list while the pagination still says
page 2; the fetch of the effect that depends on the page asks for page 2. -/
theorem listener_resync_requests_mount_values (getAllUsers : JSVal → Except String JSVal)
    (st : UsersView) :
    resyncFromListener getAllUsers st =
      (match getAllUsers (obj [("page", num 1), ("limit", num 10), ("search", str "")]) with
        | .ok response => applyUsersResponse response st
        | .error _ => { st with users := [] }) ∧
    (resyncFromListener
      (fun params => .ok (usersPayload
        (if strictEq (params.optProp "page") (num 2) then [obj [("_id", str "u11")]]
          else [obj [("_id", str "u1")]]) 11))
      { users := [obj [("_id", str "u11")]],
        pagination := obj [("current", num 2), ("pageSize", num 10), ("total", num 11)],
        searchText := str "" }).users = [obj [("_id", str "u1")]] ∧
    (resyncFromListener
      (fun params => .ok (usersPayload
        (if strictEq (params.optProp "page") (num 2) then [obj [("_id", str "u11")]]
          else [obj [("_id", str "u1")]]) 11))
      { users := [obj [("_id", str "u11")]],
        pagination := obj [("current", num 2), ("pageSize", num 10), ("total", num 11)],
        searchText := str "" }).pagination.optProp "current" = num 2 ∧
    (refetchFromEffect
      (fun params => .ok (usersPayload
        (if strictEq (params.optProp "page") (num 2) then [obj [("_id", str "u11")]]
          else [obj [("_id", str "u1")]]) 11))
      { users := [obj [("_id", str "u11")]],
        pagination := obj [("current", num 2), ("pageSize", num 10), ("total", num 11)],
        searchText := str "" }).users = [obj [("_id", str "u11")]] :=
  ⟨rfl, rfl, rfl, rfl⟩

/-- C25, as amended. Join-history page bounds are an invariant of the
navigation for integer page numbers. From a pagination whose `page` and
`totalPages` are integers with `1 <= page <= totalPages <= 2 ^ 53`, the range in
which `page + 1` and `page - 1` are exact: the bounds hold, and Previous, when
it can be pressed (the controls are rendered because `totalPages > 1` and `page`
is not 1), Next, when it can be pressed (the controls are rendered and `page`
is not `totalPages`), a filter change and clearing the filters each yield a
pagination that again has `1 <= page <= totalPages`. -/
theorem join_history_page_bounds (page totalPages : Int) (h1 : 1 ≤ page)
    (h2 : page ≤ totalPages) (h3 : totalPages ≤ 9007199254740992) :
    pageInBounds { page := JSNumber.ofInt page, totalPages := JSNumber.ofInt totalPages } = true ∧
    (previousEnabled { page := JSNumber.ofInt page, totalPages := JSNumber.ofInt totalPages } =
        true →
      ∃ next, previousClick
          { page := JSNumber.ofInt page, totalPages := JSNumber.ofInt totalPages } = some next ∧
        pageInBounds next = true) ∧
    (nextEnabled { page := JSNumber.ofInt page, totalPages := JSNumber.ofInt totalPages } =
        true →
      ∃ next, nextClick
          { page := JSNumber.ofInt page, totalPages := JSNumber.ofInt totalPages } = some next ∧
        pageInBounds next = true) ∧
    pageInBounds (pageAfterFilterChange
      { page := JSNumber.ofInt page, totalPages := JSNumber.ofInt totalPages }) = true ∧
    pageInBounds (pageAfterClearFilters
      { page := JSNumber.ofInt page, totalPages := JSNumber.ofInt totalPages }) = true := by
  refine ⟨?_, ?_, ?_, ?_, ?_⟩
  · simp [pageInBounds, JSNumber.le, JSNumber.ofInt, h1, h2]
  · intro hen
    have hne : page ≠ 1 := by
      intro h
      simp [previousEnabled, JSNumber.same, JSNumber.ofInt, h] at hen
    have hfit : -9007199254740992 ≤ page + -1 ∧ page + -1 ≤ 9007199254740992 := by omega
    refine ⟨{ page := JSNumber.ofInt (page + -1), totalPages := JSNumber.ofInt totalPages },
      ?_, ?_⟩
    · simp [previousClick, JSNumber.plus, JSNumber.ofInt, setPage, hfit]
    · have : 1 ≤ page + -1 ∧ page + -1 ≤ totalPages := by omega
      simp [pageInBounds, JSNumber.le, JSNumber.ofInt, this]
  · intro hen
    have hne : page ≠ totalPages := by
      intro h
      simp [nextEnabled, JSNumber.same, JSNumber.ofInt, h] at hen
    have hfit : -9007199254740992 ≤ page + 1 ∧ page + 1 ≤ 9007199254740992 := by omega
    refine ⟨{ page := JSNumber.ofInt (page + 1), totalPages := JSNumber.ofInt totalPages },
      ?_, ?_⟩
    · simp [nextClick, JSNumber.plus, JSNumber.ofInt, setPage, hfit]
    · have : 1 ≤ page + 1 ∧ page + 1 ≤ totalPages := by omega
      simp [pageInBounds, JSNumber.le, JSNumber.ofInt, this]
  · have : 1 ≤ totalPages := by omega
    simp [pageInBounds, pageAfterFilterChange, setPage, JSNumber.le, JSNumber.ofInt, this]
  · have : 1 ≤ totalPages := by omega
    simp [pageInBounds, pageAfterClearFilters, setPage, JSNumber.le, JSNumber.ofInt, this]

/-- Witness of C25 as amended: page 2 of 3, where both buttons can be
pressed; Previous leads to page 1 and Next to page 3. -/
theorem join_history_page_bounds_witness :
    previousEnabled { page := JSNumber.ofInt 2, totalPages := JSNumber.ofInt 3 } = true ∧
    nextEnabled { page := JSNumber.ofInt 2, totalPages := JSNumber.ofInt 3 } = true ∧
    previousClick { page := JSNumber.ofInt 2, totalPages := JSNumber.ofInt 3 } =
      some { page := JSNumber.ofInt 1, totalPages := JSNumber.ofInt 3 } ∧
    nextClick { page := JSNumber.ofInt 2, totalPages := JSNumber.ofInt 3 } =
      some { page := JSNumber.ofInt 3, totalPages := JSNumber.ofInt 3 } ∧
    (previousEnabled { page := JSNumber.ofInt 2, totalPages := JSNumber.ofInt 3 } = true →
      ∃ next, previousClick { page := JSNumber.ofInt 2, totalPages := JSNumber.ofInt 3 } =
          some next ∧
        pageInBounds next = true) ∧
    (nextEnabled { page := JSNumber.ofInt 2, totalPages := JSNumber.ofInt 3 } = true →
      ∃ next, nextClick { page := JSNumber.ofInt 2, totalPages := JSNumber.ofInt 3 } =
          some next ∧
        pageInBounds next = true) :=
  have h := join_history_page_bounds 2 3 (by decide) (by decide) (by decide)
  ⟨by decide, by decide, by decide, by decide, h.2.1, h.2.2.1⟩

/-- C25 as stated fails for a page that is not an integer. The pagination
`{ page: 1.5, totalPages: 2 }` has `1 <= page <= totalPages`, the controls are
rendered and both buttons can be pressed; Next yields page `2.5`, above
`totalPages`, and Previous yields page `0.5`, below 1. -/
theorem fractional_page_leaves_bounds :
    pageInBounds { page := { numerator := 3, exponent := 1 }, totalPages := JSNumber.ofInt 2 } =
      true ∧
    nextEnabled { page := { numerator := 3, exponent := 1 }, totalPages := JSNumber.ofInt 2 } =
      true ∧
    nextClick { page := { numerator := 3, exponent := 1 }, totalPages := JSNumber.ofInt 2 } =
      some { page := { numerator := 5, exponent := 1 }, totalPages := JSNumber.ofInt 2 } ∧
    pageInBounds { page := { numerator := 5, exponent := 1 }, totalPages := JSNumber.ofInt 2 } =
      false ∧
    previousEnabled { page := { numerator := 3, exponent := 1 }, totalPages := JSNumber.ofInt 2 } =
      true ∧
    previousClick { page := { numerator := 3, exponent := 1 }, totalPages := JSNumber.ofInt 2 } =
      some { page := { numerator := 1, exponent := 1 }, totalPages := JSNumber.ofInt 2 } ∧
    pageInBounds { page := { numerator := 1, exponent := 1 }, totalPages := JSNumber.ofInt 2 } =
      false := by
  decide

/-- C26. Changing a filter resets to the first page and touches nothing else.
In JoinHistory, for a view whose filters and pagination are records,
`handleFilterChange` for the field `name` with the value `value` sets
`filters[name]` to `value` and leaves every other filter field as it was, sets
`pagination.page` to 1 and leaves every other member of the pagination
(`limit`, `totalRecords`, `totalPages`) as it was, and leaves the history and
`loading`; `clearFilters` sets both dates to the empty string and the page to
1 and leaves the rest. In Users, `handleSearch(search)` sets the search text
to `search` and `pagination.current` to 1 and leaves every other member of the
pagination (`pageSize`, `total`) and the user list. -/
theorem filter_change_resets_page (loading joinHistory : JSVal) (filters pagination : Props)
    (name : String) (value : JSVal) (users : List JSVal) (usersPagination : Props)
    (searchText search : JSVal) :
    ((handleFilterChange name value (JoinHistoryView.mk loading joinHistory (obj pagination) (obj filters))).filters.optProp name = value ∧
      (∀ k, k ≠ name →
        (handleFilterChange name value (JoinHistoryView.mk loading joinHistory (obj pagination) (obj filters))).filters.optProp k =
          lookup k filters) ∧
      (handleFilterChange name value (JoinHistoryView.mk loading joinHistory (obj pagination) (obj filters))).pagination.optProp "page" =
        num 1 ∧
      (∀ k, k ≠ "page" →
        (handleFilterChange name value (JoinHistoryView.mk loading joinHistory (obj pagination) (obj filters))).pagination.optProp k =
          lookup k pagination) ∧
      (handleFilterChange name value (JoinHistoryView.mk loading joinHistory (obj pagination) (obj filters))).joinHistory = joinHistory ∧
      (handleFilterChange name value (JoinHistoryView.mk loading joinHistory (obj pagination) (obj filters))).loading = loading) ∧
    ((clearFilters (JoinHistoryView.mk loading joinHistory (obj pagination) (obj filters))).filters =
        obj [("startDate", str ""), ("endDate", str "")] ∧
      (clearFilters (JoinHistoryView.mk loading joinHistory (obj pagination) (obj filters))).pagination.optProp "page" =
        num 1 ∧
      (∀ k, k ≠ "page" →
        (clearFilters (JoinHistoryView.mk loading joinHistory (obj pagination) (obj filters))).pagination.optProp k =
          lookup k pagination) ∧
      (clearFilters (JoinHistoryView.mk loading joinHistory (obj pagination) (obj filters))).joinHistory = joinHistory ∧
      (clearFilters (JoinHistoryView.mk loading joinHistory (obj pagination) (obj filters))).loading = loading) ∧
    ((handleSearch search (UsersView.mk users (obj usersPagination) searchText)).searchText = search ∧
      (handleSearch search (UsersView.mk users (obj usersPagination) searchText)).pagination.optProp "current" = num 1 ∧
      (∀ k, k ≠ "current" →
        (handleSearch search (UsersView.mk users (obj usersPagination) searchText)).pagination.optProp k = lookup k usersPagination) ∧
      (handleSearch search (UsersView.mk users (obj usersPagination) searchText)).users = users) :=
  ⟨⟨optProp_spreadWith_self _ _ _, fun _ hk => optProp_spreadWith_of_ne _ hk _,
      optProp_spreadWith_self _ _ _, fun _ hk => optProp_spreadWith_of_ne _ hk _, rfl, rfl⟩,
    ⟨rfl, optProp_spreadWith_self _ _ _, fun _ hk => optProp_spreadWith_of_ne _ hk _, rfl, rfl⟩,
    ⟨rfl, optProp_spreadWith_self _ _ _, fun _ hk => optProp_spreadWith_of_ne _ hk _, rfl⟩⟩

/-! ## The dashboard snapshot -/

/-- C27. After a successful dashboard snapshot fetch whose active and private
frequency responses unwrap to the arrays `A` and `P`: `stats.activeFrequencies`
is the length of `A` and `stats.privateFrequencies` the length of `P`; the
displayed lists are the first five elements of `A` and of `P` in their order,
that is `min(5, length)` elements that start the array; a response that does
not unwrap to an array gives the count 0 and the empty list; `totalUsers` and
`dailyActiveUsers` are the fetched `total` and `dailyActive` when these are
numbers and 0 when they are missing; `loading` ends false. -/
theorem dashboard_snapshot (rs ra rp rd rg : JSVal) (st : DashboardView) (A P : List JSVal)
    (hA : unwrapResponse ra = arr A) (hP : unwrapResponse rp = arr P) :
    ((fetchDashboardData (.ok rs) (.ok ra) (.ok rp) (.ok rd) (.ok rg) st).stats.optProp
        "activeFrequencies" = num A.length ∧
      (fetchDashboardData (.ok rs) (.ok ra) (.ok rp) (.ok rd) (.ok rg) st).stats.optProp
        "privateFrequencies" = num P.length ∧
      (fetchDashboardData (.ok rs) (.ok ra) (.ok rp) (.ok rd) (.ok rg) st).activeFrequencies =
        arr (A.take 5) ∧
      (fetchDashboardData (.ok rs) (.ok ra) (.ok rp) (.ok rd) (.ok rg) st).privateFrequencies =
        arr (P.take 5) ∧
      (A.take 5).length = min 5 A.length ∧ A.take 5 ++ A.drop 5 = A ∧
      (P.take 5).length = min 5 P.length ∧ P.take 5 ++ P.drop 5 = P ∧
      (fetchDashboardData (.ok rs) (.ok ra) (.ok rp) (.ok rd) (.ok rg) st).loading =
        JSVal.bool false) ∧
    (∀ other : JSVal, (unwrapResponse other).isArray = false →
      (fetchDashboardData (.ok rs) (.ok other) (.ok other) (.ok rd) (.ok rg) st).stats.optProp
        "activeFrequencies" = num 0 ∧
      (fetchDashboardData (.ok rs) (.ok other) (.ok other) (.ok rd) (.ok rg) st).stats.optProp
        "privateFrequencies" = num 0 ∧
      (fetchDashboardData (.ok rs) (.ok other) (.ok other) (.ok rd) (.ok rg) st).activeFrequencies
        = arr [] ∧
      (fetchDashboardData (.ok rs) (.ok other) (.ok other) (.ok rd) (.ok rg) st).privateFrequencies
        = arr []) ∧
    ((∀ t : Int, (unwrapResponse rs).optProp "total" = num t →
        (fetchDashboardData (.ok rs) (.ok ra) (.ok rp) (.ok rd) (.ok rg) st).stats.optProp
          "totalUsers" = num t) ∧
      ((unwrapResponse rs).optProp "total" = undefined →
        (fetchDashboardData (.ok rs) (.ok ra) (.ok rp) (.ok rd) (.ok rg) st).stats.optProp
          "totalUsers" = num 0) ∧
      (∀ d : Int, (unwrapResponse rs).optProp "dailyActive" = num d →
        (fetchDashboardData (.ok rs) (.ok ra) (.ok rp) (.ok rd) (.ok rg) st).stats.optProp
          "dailyActiveUsers" = num d) ∧
      ((unwrapResponse rs).optProp "dailyActive" = undefined →
        (fetchDashboardData (.ok rs) (.ok ra) (.ok rp) (.ok rd) (.ok rg) st).stats.optProp
          "dailyActiveUsers" = num 0)) := by
  have hnum : ∀ t : Int, (num t).or (num 0) = num t := by
    intro t
    by_cases h : t = 0 <;> simp [JSVal.or, truthy, h]
  refine ⟨⟨?_, ?_, ?_, ?_, ?_, List.take_append_drop 5 A, ?_, List.take_append_drop 5 P, rfl⟩,
    ?_, ⟨?_, ?_, ?_, ?_⟩⟩
  · simp [fetchDashboardData_resolved, applyDashboardResponses, hA, lengthOrZero, optProp, lookup]
  · simp [fetchDashboardData_resolved, applyDashboardResponses, hP, lengthOrZero, optProp, lookup]
  · simp [fetchDashboardData_resolved, applyDashboardResponses, hA, firstFiveOrEmpty]
  · simp [fetchDashboardData_resolved, applyDashboardResponses, hP, firstFiveOrEmpty]
  · simp [List.length_take]
  · simp [List.length_take]
  · intro other hother
    cases hv : unwrapResponse other <;>
      simp_all [fetchDashboardData_resolved, applyDashboardResponses, lengthOrZero,
        firstFiveOrEmpty, optProp, lookup, isArray]
  · intro t ht
    show ((unwrapResponse rs).optProp "total").or (num 0) = num t
    rw [ht, hnum]
  · intro ht
    show ((unwrapResponse rs).optProp "total").or (num 0) = num 0
    rw [ht]
    rfl
  · intro d hd
    show ((unwrapResponse rs).optProp "dailyActive").or (num 0) = num d
    rw [hd, hnum]
  · intro hd
    show ((unwrapResponse rs).optProp "dailyActive").or (num 0) = num 0
    rw [hd]
    rfl

/-- Witness of C27: six active frequencies in a bare array, one private
frequency in an envelope, and the user statistics `{ total: 42, dailyActive: 7 }`,
fetched from the view at mount. -/
theorem dashboard_snapshot_witness :
    (fetchDashboardData (.ok (obj [("total", num 42), ("dailyActive", num 7)]))
      (.ok (arr [num 1, num 2, num 3, num 4, num 5, num 6]))
      (.ok (enveloped (arr [num 9]))) (.ok (arr [])) (.ok (arr []))
      initialDashboardView).stats.optProp "activeFrequencies" = num 6 ∧
    (fetchDashboardData (.ok (obj [("total", num 42), ("dailyActive", num 7)]))
      (.ok (arr [num 1, num 2, num 3, num 4, num 5, num 6]))
      (.ok (enveloped (arr [num 9]))) (.ok (arr [])) (.ok (arr []))
      initialDashboardView).activeFrequencies = arr [num 1, num 2, num 3, num 4, num 5] ∧
    (fetchDashboardData (.ok (obj [("total", num 42), ("dailyActive", num 7)]))
      (.ok (arr [num 1, num 2, num 3, num 4, num 5, num 6]))
      (.ok (enveloped (arr [num 9]))) (.ok (arr [])) (.ok (arr []))
      initialDashboardView).privateFrequencies = arr [num 9] ∧
    (fetchDashboardData (.ok (obj [("total", num 42), ("dailyActive", num 7)]))
      (.ok (arr [num 1, num 2, num 3, num 4, num 5, num 6]))
      (.ok (enveloped (arr [num 9]))) (.ok (arr [])) (.ok (arr []))
      initialDashboardView).stats.optProp "totalUsers" = num 42 :=
  have h := dashboard_snapshot (obj [("total", num 42), ("dailyActive", num 7)])
    (arr [num 1, num 2, num 3, num 4, num 5, num 6]) (enveloped (arr [num 9])) (arr []) (arr [])
    initialDashboardView [num 1, num 2, num 3, num 4, num 5, num 6] [num 9] rfl rfl
  ⟨h.1.1, h.1.2.2.1, h.1.2.2.2.1, h.2.2.1 42 rfl⟩

end Presence
